import Mathlib

set_option linter.unreachableTactic false
set_option linter.unusedTactic false

/-!
Shallow embedding of the M68k Binary Ninja architecture plugin
(instruction decoder, effective-address decoder, control-flow analyzer and
the LLIL lifter fragments relevant to the verified claims), together with
proofs about it.

Conventions of the embedding:

* Python byte strings become `List Nat` (one entry per byte).
* `struct.unpack_from` raises `struct.error` when the buffer is too short;
  every such possible exception is modelled by the `Py` monad
  (`Except Unit`).  A `.error ()` result means the Python code raised.
* Python `None` becomes `Option.none`.
* `decode_instruction` returns the tuple
  `(instr, length, size, source, dest, third)`, modelled by `Decoded`.
* In the source every decode failure path returns the single value
  `error_value = ('unimplemented', len(data), None, None, None, None)`;
  the per-nibble helpers below return `none` for all of those paths and the
  top level `decode_instruction` maps `none` to that sentinel, exactly as
  the source does with its final `if instr is None: return error_value`.
-/

namespace M68k

/-- The Python-exception monad: `.error ()` models a raised exception
(`struct.error`, `TypeError`, `IndexError`). -/
abbrev Py (α : Type) : Type := Except Unit α

/-- Interpret an unsigned `w`-bit value as a signed integer
(two's complement), as Python `struct` does for the signed formats. -/
def toSigned (w : Nat) (n : Nat) : Int :=
  if n < 2 ^ (w - 1) then (n : Int) else (n : Int) - 2 ^ w

/-- Read one byte; `struct.unpack_from` raises when out of range. -/
def readU8 (data : List Nat) (off : Nat) : Py Nat :=
  match data.get? off with
  | some b => .ok b
  | none => .error ()

/-- Big-endian unsigned 16-bit read (format `>H`). -/
def readU16 (data : List Nat) (off : Nat) : Py Nat := do
  let b0 ← readU8 data off
  let b1 ← readU8 data (off + 1)
  return 256 * b0 + b1

/-- Big-endian unsigned 32-bit read (format `>L`). -/
def readU32 (data : List Nat) (off : Nat) : Py Nat := do
  let b0 ← readU16 data off
  let b1 ← readU16 data (off + 2)
  return 65536 * b0 + b1

/-- Big-endian signed byte read (format `>b`). -/
def readS8 (data : List Nat) (off : Nat) : Py Int := do
  let b ← readU8 data off
  return toSigned 8 b

/-- Big-endian signed 16-bit read (format `>h`). -/
def readS16 (data : List Nat) (off : Nat) : Py Int := do
  let b ← readU16 data off
  return toSigned 16 b

/-- Big-endian signed 32-bit read (format `>l`). -/
def readS32 (data : List Nat) (off : Nat) : Py Int := do
  let b ← readU32 data off
  return toSigned 32 b

/-- Python `n + m` where `m` may be `None`: adding `None` raises
`TypeError`, which the source relies on never happening on live paths. -/
def pyAdd (n : Nat) (m : Option Nat) : Py Nat :=
  match m with
  | some m => .ok (n + m)
  | none => .error ()

/-- List indexing with an inhabited default.  Every use site masks the
index below the length of the list, so the default is never produced. -/
def idx {α : Type} [Inhabited α] (l : List α) (i : Nat) : α :=
  l.getD i default

/-- The `Registers` table. -/
def Registers : List String :=
  ["d0", "d1", "d2", "d3", "d4", "d5", "d6", "d7",
   "a0", "a1", "a2", "a3", "a4", "a5", "a6", "sp"]

/-- The `Condition` table indexed by the 4-bit condition code. -/
def Condition : List String :=
  ["t", "f", "hi", "ls", "cc", "cs", "ne", "eq",
   "vc", "vs", "pl", "mi", "ge", "lt", "gt", "le"]

/-- The `FP_Condition` table indexed by the 6-bit FP condition code. -/
def FP_Condition : List String :=
  ["f", "eq", "ogt", "oge", "olt", "ole", "ogl", "or",
   "un", "ueq", "ugt", "uge", "ult", "ule", "ne", "t",
   "sf", "seq", "gt", "ge", "lt", "le", "gl", "gle",
   "ngle", "ngl", "nle", "nlt", "nge", "ngt", "sne", "st"]

/-- `FBcc_Instructions = tuple('fb'+x for x in FP_Condition)`. -/
def FBcc_Instructions : List String := FP_Condition.map (fun x => "fb" ++ x)

/-- The `ShiftStyle` table. -/
def ShiftStyle : List String := ["as", "ls", "rox", "ro"]

/-- The `BitfieldStyle` table. -/
def BitfieldStyle : List String :=
  ["tst", "extu", "chg", "exts", "clr", "ffo", "set", "ins"]

/-- The `FP_Registers` table. -/
def FP_Registers : List String :=
  ["fp0", "fp1", "fp2", "fp3", "fp4", "fp5", "fp6", "fp7"]

/-- The `FP_SCRegisters` dict, in insertion (key-iteration) order. -/
def FP_SCRegisters : List (Nat × String) :=
  [(1, "fpiar"), (2, "fpsr"), (4, "fpcr")]

def DATA_BYTE : Nat := 0
def DATA_WORD : Nat := 1
def DATA_LONG : Nat := 2

/-- `ActualFormatSize = [1 << DATA_BYTE, 1 << DATA_WORD, 1 << DATA_LONG]`. -/
def ActualFormatSize : List Nat := [1, 2, 4]

/-- `ActualFormatSize[i]` for a literal in-range index. -/
def afs (i : Nat) : Nat := ActualFormatSize.getD i 0

/-- `ActualFormatSize[i]` for a computed index; raises (`TypeError` /
`IndexError`) on `None` or an out-of-range index, as Python does. -/
def actualFormatSize (i : Option Nat) : Py Nat :=
  match i with
  | some i => if i < ActualFormatSize.length then .ok (afs i) else .error ()
  | none => .error ()

def FP_DATA_LONG : Nat := 0
def FP_DATA_SINGLE_PRECISION : Nat := 1
def FP_DATA_EXTENDED_PRECISION : Nat := 2
def FP_DATA_PACKED : Nat := 3
def FP_DATA_WORD : Nat := 4
def FP_DATA_DOUBLE_PRECISION : Nat := 5
def FP_DATA_BYTE : Nat := 6
def FP_DATA_PACKED_DYNAMIC_K : Nat := 7
def FP_DATA_REGISTER : Nat := 8
def FP_DATA_SCREGISTER : Nat := 9

/-- `FP_ActualFormatSize` table. -/
def FP_ActualFormatSize : List Nat := [4, 4, 12, 12, 2, 8, 1, 12, 10, 4]

/-- `FP_ActualFormatSize[i]` for an in-range index. -/
def fpAfs (i : Nat) : Nat := FP_ActualFormatSize.getD i 0

/-- The operand model: one constructor per operand class of the source. -/
inductive Operand : Type where
  | RegisterDirect (size : Option Nat) (reg : String)
  | FPRegisterDirect (size : Nat) (reg : String)
  | RegisterDirectPair (size : Option Nat) (reg1 reg2 : String)
  | RegisterMovemList (size : Option Nat) (regs : List String)
  | FPRegisterMovemList (size : Nat) (regs : List String)
  | FPSCRegisterMovemList (size : Nat) (regs : List String)
  | RegisterIndirect (size : Option Nat) (reg : String)
  | RegisterIndirectPair (size : Option Nat) (reg1 reg2 : String)
  | RegisterIndirectPostincrement (size : Option Nat) (reg : String)
  | RegisterIndirectPredecrement (size : Option Nat) (reg : String)
  | RegisterIndirectDisplacement (size : Option Nat) (reg : String) (offset : Int)
  | RegisterIndirectIndex (size : Option Nat) (reg : Option String) (offset : Int)
      (ireg : Option String) (iregLong : Nat) (scale : Nat)
  | MemoryIndirectPostindex (size : Option Nat) (reg : Option String) (offset : Int)
      (ireg : Option String) (iregLong : Nat) (scale : Nat) (outerDisplacement : Int)
  | MemoryIndirectPreindex (size : Option Nat) (reg : Option String) (offset : Int)
      (ireg : Option String) (iregLong : Nat) (scale : Nat) (outerDisplacement : Int)
  | Absolute (size : Option Nat) (address : Int) (addressSize : Nat) (addressWidth : Nat)
  | Immediate (size : Option Nat) (value : Option Int)
  | FPImmediate (size : Nat) (raw : List Nat)
deriving DecidableEq, Repr

/-- In-place mutation `op.size = s` used at a few spots of the decoder and
the lifter (the assigned value is an enum constant, not a byte count; the
embedding preserves that faithfully). -/
def Operand.setSize (op : Operand) (s : Option Nat) : Operand :=
  match op with
  | .RegisterDirect _ r => .RegisterDirect s r
  | .FPRegisterDirect _ r => .FPRegisterDirect (s.getD 0) r
  | .RegisterDirectPair _ a b => .RegisterDirectPair s a b
  | .RegisterMovemList _ rs => .RegisterMovemList s rs
  | .FPRegisterMovemList _ rs => .FPRegisterMovemList (s.getD 0) rs
  | .FPSCRegisterMovemList _ rs => .FPSCRegisterMovemList (s.getD 0) rs
  | .RegisterIndirect _ r => .RegisterIndirect s r
  | .RegisterIndirectPair _ a b => .RegisterIndirectPair s a b
  | .RegisterIndirectPostincrement _ r => .RegisterIndirectPostincrement s r
  | .RegisterIndirectPredecrement _ r => .RegisterIndirectPredecrement s r
  | .RegisterIndirectDisplacement _ r o => .RegisterIndirectDisplacement s r o
  | .RegisterIndirectIndex _ r o ir il sc => .RegisterIndirectIndex s r o ir il sc
  | .MemoryIndirectPostindex _ r o ir il sc od => .MemoryIndirectPostindex s r o ir il sc od
  | .MemoryIndirectPreindex _ r o ir il sc od => .MemoryIndirectPreindex s r o ir il sc od
  | .Absolute _ a asz aw => .Absolute s a asz aw
  | .Immediate _ v => .Immediate s v
  | .FPImmediate sz raw => .FPImmediate ((s.getD sz)) raw

/-- Per-processor variant configuration (the class attributes that the
decoder and lifter consult). -/
structure Variant : Type where
  name : String
  address_size : Nat
  control_registers : List (Nat × String)
  memory_indirect : Bool
  movem_store_decremented : Bool
deriving DecidableEq, Repr

def M68000 : Variant :=
  { name := "M68000", address_size := 3, control_registers := [],
    memory_indirect := false, movem_store_decremented := false }

def M68008 : Variant := { M68000 with name := "M68008" }

def M68010 : Variant :=
  { M68000 with
    name := "M68010",
    control_registers :=
      [(0x000, "sfc"), (0x001, "dfc"), (0x800, "usp"), (0x801, "vbr")] }

def M68020 : Variant :=
  { M68010 with
    name := "M68020",
    control_registers :=
      [(0x000, "sfc"), (0x001, "dfc"), (0x800, "usp"), (0x801, "vbr"),
       (0x002, "cacr"), (0x802, "caar"), (0x803, "msp"), (0x804, "isp")],
    address_size := 4, memory_indirect := true,
    movem_store_decremented := true }

def M68030 : Variant := { M68020 with name := "M68030" }

def M68040 : Variant :=
  { M68030 with
    name := "M68040",
    control_registers :=
      [(0x000, "sfc"), (0x001, "dfc"), (0x800, "usp"), (0x801, "vbr"),
       (0x002, "cacr"), (0x803, "msp"), (0x804, "isp"),
       (0x003, "tc"), (0x004, "itt0"), (0x005, "itt1"), (0x006, "dtt0"),
       (0x007, "dtt1"), (0x805, "mmusr"), (0x806, "urp"), (0x807, "srp")] }

def M68LC040 : Variant := { M68040 with name := "M68LC040" }

def M68EC040 : Variant :=
  { M68040 with
    name := "M68EC040",
    control_registers :=
      [(0x000, "sfc"), (0x001, "dfc"), (0x800, "usp"), (0x801, "vbr"),
       (0x002, "cacr"), (0x803, "msp"), (0x804, "isp"),
       (0x004, "iacr0"), (0x005, "iacr1"), (0x006, "dacr0"), (0x007, "dacr1")] }

def M68330 : Variant :=
  { M68010 with name := "M68330", movem_store_decremented := true }

def M68340 : Variant := { M68330 with name := "M68340" }

/-- The extension-word tail of `decode_effective_address` (the part below
`if reg is not None:`), reached for mode 6 and mode 7/3.  `reg0` is the
base register selected by the caller (`A`-register or `pc`). -/
def decode_extension_word (reg0 : Option String) (data : List Nat)
    (size : Option Nat) : Py (Option Operand × Option Nat) := do
  let extra ← readU16 data 0
  let xn := idx Registers (extra >>> 12)
  let index_size := (extra >>> 11) &&& 1
  let scale := 1 <<< ((extra >>> 9) &&& 3)
  let length := 2
  if extra &&& 0x0100 ≠ 0 then
    -- full extension word
    let reg := if (extra >>> 7) &&& 1 = 1 then none else reg0
    let xnOpt := if (extra >>> 6) &&& 1 = 1 then none else some xn
    -- base displacement
    let (bd, length) ←
      if (extra >>> 4) &&& 3 = 2 then do
        let v ← readS16 data length
        pure (v, length + 2)
      else if (extra >>> 4) &&& 3 = 3 then do
        let v ← readU32 data length
        pure ((v : Int), length + 4)
      else
        pure ((0 : Int), length)
    -- outer displacement
    let (od, length) ←
      if extra &&& 3 = 2 then do
        let v ← readS16 data length
        pure (v, length + 2)
      else if extra &&& 3 = 3 then do
        let v ← readU32 data length
        pure ((v : Int), length + 4)
      else
        pure ((0 : Int), length)
    if extra &&& 7 = 0 then
      return (some (.RegisterIndirectIndex size reg bd xnOpt index_size scale), some length)
    else if (extra >>> 2) &&& 1 = 1 then
      return (some (.MemoryIndirectPostindex size reg bd xnOpt index_size scale od), some length)
    else
      return (some (.MemoryIndirectPreindex size reg bd xnOpt index_size scale od), some length)
  else
    -- brief extension word: 8 bit displacement
    let d8 := extra &&& 0xff
    let d8 : Int := if d8 &&& 0x80 ≠ 0 then (d8 : Int) - 256 else (d8 : Int)
    return (some (.RegisterIndirectIndex size reg0 d8 (some xn) index_size scale), some length)

/-- `decode_effective_address` of the source. -/
def decode_effective_address (cfg : Variant) (mode register : Nat)
    (data : List Nat) (size : Option Nat) : Py (Option Operand × Option Nat) := do
  let mode := mode &&& 0x07
  let register := register &&& 0x07
  if mode = 0 then
    -- data register direct
    return (some (.RegisterDirect size (idx Registers register)), some 0)
  else if mode = 1 then
    -- address register direct
    return (some (.RegisterDirect size (idx Registers (register + 8))), some 0)
  else if mode = 2 then
    -- address register indirect
    return (some (.RegisterIndirect size (idx Registers (register + 8))), some 0)
  else if mode = 3 then
    -- address register indirect with postincrement
    return (some (.RegisterIndirectPostincrement size (idx Registers (register + 8))), some 0)
  else if mode = 4 then
    -- address register indirect with predecrement
    return (some (.RegisterIndirectPredecrement size (idx Registers (register + 8))), some 0)
  else if mode = 5 then
    -- address register indirect with displacement
    let d ← readS16 data 0
    return (some (.RegisterIndirectDisplacement size (idx Registers (register + 8)) d), some 2)
  else if mode = 6 then
    -- extended addressing mode
    decode_extension_word (some (idx Registers (register + 8))) data size
  else if mode = 7 then
    if register = 0 then
      -- absolute short
      let val ← readU16 data 0
      let val :=
        if val &&& 0x8000 ≠ 0 then
          if cfg.address_size = 4 then val ||| 0xffff0000 else val ||| 0xff0000
        else val
      return (some (.Absolute size (val : Int) 1 cfg.address_size), some 2)
    else if register = 1 then
      -- absolute long
      let val ← readU32 data 0
      return (some (.Absolute size (val : Int) 2 cfg.address_size), some 4)
    else if register = 2 then
      -- program counter indirect with displacement
      let d ← readS16 data 0
      return (some (.RegisterIndirectDisplacement size "pc" d), some 2)
    else if register = 3 then
      -- extended addressing mode
      decode_extension_word (some "pc") data size
    else if register = 4 then
      -- immediate
      match size with
      | none =>
          -- unspecified length
          return (some (.Immediate size none), none)
      | some s =>
          if s = afs DATA_BYTE then do
            let v ← readS8 data 1
            return (some (.Immediate size (some v)), some 2)
          else if s = afs DATA_WORD then do
            let v ← readS16 data 0
            return (some (.Immediate size (some v)), some 2)
          else if s = afs DATA_LONG then do
            let v ← readS32 data 0
            return (some (.Immediate size (some v)), some 4)
          else
            return (none, none)
    else
      return (none, none)
  else
    return (none, none)

/-- The `FP_OpImmediate` constructor.  Only the raw bytes are retained
(`value`/`text` are derived display data); the possible `struct.error` of
the constructor is modelled precisely. -/
def mkFPImmediate (size : Nat) (raw : List Nat) : Py Operand :=
  if size = fpAfs FP_DATA_EXTENDED_PRECISION then
    -- m64k_extended_bytes2float: int.from_bytes, no exception
    .ok (.FPImmediate size raw)
  else if size = fpAfs FP_DATA_SINGLE_PRECISION then
    -- format '>f': needs 4 bytes
    if 4 ≤ raw.length then .ok (.FPImmediate size raw) else .error ()
  else if size = fpAfs FP_DATA_DOUBLE_PRECISION then
    -- format '>d': needs 8 bytes
    if 8 ≤ raw.length then .ok (.FPImmediate size raw) else .error ()
  else
    -- format '>Q': needs 8 bytes
    if 8 ≤ raw.length then .ok (.FPImmediate size raw) else .error ()

/-- `fp_decode_effective_address` of the source. -/
def fp_decode_effective_address (cfg : Variant) (mode register : Nat)
    (data : List Nat) (size : Nat) (fp_format : Option Nat) :
    Py (Option Operand × Option Nat) := do
  let mode := mode &&& 0x07
  let register := register &&& 0x07
  if mode = 0 then
    -- data register direct
    if size ≤ fpAfs FP_DATA_LONG then
      decode_effective_address cfg mode register data (some size)
    else
      return (none, none)
  else if mode = 1 then
    -- address register direct
    if size ≤ fpAfs FP_DATA_LONG then
      decode_effective_address cfg mode register data (some size)
    else
      return (none, none)
  else if mode = 2 then
    -- address register indirect
    if size = fpAfs FP_DATA_LONG ∨ size = fpAfs FP_DATA_SINGLE_PRECISION then
      decode_effective_address cfg mode register data (some size)
    else
      return (none, none)
  else if mode = 3 ∨ mode = 4 ∨ mode = 5 ∨ mode = 6 then
    decode_effective_address cfg mode register data (some size)
  else if mode = 7 then
    if register = 1 then
      -- absolute long addressing
      decode_effective_address cfg mode register data (some size)
    else if register = 4 then
      -- immediates
      if fp_format = some FP_DATA_SINGLE_PRECISION ∨
         fp_format = some FP_DATA_DOUBLE_PRECISION ∨
         fp_format = some FP_DATA_EXTENDED_PRECISION then do
        let op ← mkFPImmediate size (data.take size)
        return (some op, some size)
      else if size ≤ afs DATA_LONG then
        decode_effective_address cfg mode register data (some size)
      else
        return (none, none)
    else
      return (none, none)
  else
    return (none, none)

/-- The decoded-instruction tuple
`(instr, length, size, source, dest, third)` of `decode_instruction`. -/
structure Decoded : Type where
  instr : String
  length : Option Nat
  size : Option Nat
  source : Option Operand
  dest : Option Operand
  third : Option Operand
deriving DecidableEq, Repr

/-- `error_value = ('unimplemented', len(data), None, None, None, None)`. -/
def error_value (data : List Nat) : Decoded :=
  ⟨"unimplemented", some data.length, none, none, none, none⟩

/-- Python attribute access `op.reg` (used only on operand classes that
define the attribute). -/
def Operand.reg : Operand → String
  | .RegisterDirect _ r => r
  | .FPRegisterDirect _ r => r
  | .RegisterIndirect _ r => r
  | .RegisterIndirectPostincrement _ r => r
  | .RegisterIndirectPredecrement _ r => r
  | .RegisterIndirectDisplacement _ r _ => r
  | _ => ""

/-- `dest.reg[0] == 'a' or dest.reg == 'sp'`. -/
def isAddressRegisterName (r : String) : Bool :=
  r.take 1 = "a" ∨ r = "sp"

/-- `decode_instruction`, nibble `0x0` (bit manipulation / MOVEP /
immediate arithmetic). -/
def decode_op0 (cfg : Variant) (instruction : Nat) (data : List Nat) :
    Py (Option Decoded) := do
  let msb := instruction >>> 8
  if instruction &&& 0xf9c0 = 0x00c0 then
    -- rtm, callm, chk2, cmp2
    if instruction &&& 0xfff0 = 0x06c0 then
      return some ⟨"rtm", some 2, none, none,
        some (.RegisterDirect (some (afs DATA_LONG)) (idx Registers (instruction &&& 15))), none⟩
    else if instruction &&& 0xffc0 = 0x06c0 then do
      let b ← readU8 data 3
      let source := Operand.Immediate (some (afs DATA_BYTE)) (some (b : Int))
      let (dest, extra_dest) ← decode_effective_address cfg (instruction >>> 3) instruction
        (data.drop 4) (some (afs DATA_BYTE))
      match extra_dest with
      | none => return none
      | some ed => return some ⟨"callm", some (4 + ed), none, some source, dest, none⟩
    else do
      let size := (instruction >>> 9) &&& 3
      let extra ← readU16 data 2
      let instr := if extra &&& 0x0800 ≠ 0 then "chk2" else "cmp2"
      let (source, extra_source) ← decode_effective_address cfg (instruction >>> 3) instruction
        (data.drop 4) (some (afs DATA_BYTE))
      let asz ← actualFormatSize (some size)
      let dest := Operand.RegisterDirect (some asz) (idx Registers ((extra >>> 12) &&& 15))
      match extra_source with
      | none => return none
      | some es => return some ⟨instr, some (4 + es), some size, source, some dest, none⟩
  else if instruction &&& 0xffc0 = 0x0ac0 ∨ instruction &&& 0xffc0 = 0x0cc0 ∨
      instruction &&& 0xffc0 = 0x0ec0 then
    if instruction &&& 0xf9ff = 0x08fc then do
      -- cas2
      let size := ((instruction >>> 9) &&& 3) - 1
      let extra1 ← readU16 data 2
      let extra2 ← readU16 data 4
      let asz ← actualFormatSize (some size)
      let source := Operand.RegisterDirectPair (some asz)
        (idx Registers (extra1 &&& 7)) (idx Registers (extra2 &&& 7))
      let dest := Operand.RegisterDirectPair (some asz)
        (idx Registers ((extra1 >>> 6) &&& 7)) (idx Registers ((extra2 >>> 6) &&& 7))
      let third := Operand.RegisterIndirectPair (some asz)
        (idx Registers ((extra1 >>> 12) &&& 15)) (idx Registers ((extra2 >>> 12) &&& 15))
      return some ⟨"cas2", some 6, some size, some source, some dest, some third⟩
    else do
      -- cas
      let size := ((instruction >>> 9) &&& 3) - 1
      let extra ← readU16 data 2
      let asz ← actualFormatSize (some size)
      let source := Operand.RegisterDirect (some asz) (idx Registers (extra &&& 7))
      let dest := Operand.RegisterDirect (some asz) (idx Registers ((extra >>> 6) &&& 7))
      let (third, extra_third) ← decode_effective_address cfg (instruction >>> 3) instruction
        (data.drop 4) (some asz)
      match extra_third with
      | none => return none
      | some et => return some ⟨"cas", some (4 + et), some size, some source, some dest, third⟩
  else if msb = 0x00 ∨ msb = 0x02 ∨ msb = 0x04 ∨ msb = 0x06 ∨ msb = 0x0a ∨ msb = 0x0c then do
    -- ORI, ANDI, SUBI, ADDI, EORI, CMPI
    let instr := if msb = 0x00 then "ori" else if msb = 0x02 then "andi"
      else if msb = 0x04 then "subi" else if msb = 0x06 then "addi"
      else if msb = 0x0a then "eori" else "cmpi"
    let size := (instruction >>> 6) &&& 0x03
    let asz ← actualFormatSize (some size)
    let (source, extra_source) ← decode_effective_address cfg 7 4 (data.drop 2) (some asz)
    let (dest, extra_dest) ←
      if instruction &&& 0x00ff = 0x003c then
        pure (some (Operand.RegisterDirect (some asz) "ccr"), some 0)
      else if instruction &&& 0x00ff = 0x007c then
        pure (some (Operand.RegisterDirect (some asz) "sr"), some 0)
      else do
        let o ← pyAdd 2 extra_source
        decode_effective_address cfg (instruction >>> 3) instruction (data.drop o) (some asz)
    match dest with
    | none => return none
    | some _ => do
      let l1 ← pyAdd 2 extra_source
      let l ← pyAdd l1 extra_dest
      return some ⟨instr, some l, some size, source, dest, none⟩
  else if msb = 0x08 then do
    -- btst, bchg, bclr, bset with constant
    -- (the four masks cover every opcode with this msb)
    let instr := if instruction &&& 0xffc0 = 0x0800 then "btst"
      else if instruction &&& 0xffc0 = 0x0840 then "bchg"
      else if instruction &&& 0xffc0 = 0x0880 then "bclr" else "bset"
    let b ← readU8 data 3
    let source := Operand.Immediate (some (afs DATA_BYTE)) (some (b : Int))
    let (dest, extra_dest) ← decode_effective_address cfg (instruction >>> 3) instruction
      (data.drop 4) (some (afs DATA_BYTE))
    -- dest.size = DATA_LONG (the enum value, not a byte count)
    let dest := dest.map (fun d => match d with
      | Operand.RegisterDirect _ r => Operand.RegisterDirect (some DATA_LONG) r
      | d => d)
    match dest with
    | none => return none
    | some _ => do
      let l ← pyAdd 4 extra_dest
      return some ⟨instr, some l, none, some source, dest, none⟩
  else if msb &&& 0xf1 = 0x01 then
    if instruction &&& 0xf138 = 0x0108 then do
      -- movep
      let size := ((instruction >>> 6) &&& 1) + 1
      let (source, extra_source) ← decode_effective_address cfg 5 instruction
        (data.drop 2) (some (afs DATA_BYTE))
      let asz ← actualFormatSize (some size)
      let dest := some (Operand.RegisterDirect (some asz) (idx Registers ((instruction >>> 9) &&& 7)))
      let l ← pyAdd 2 extra_source
      let (source, dest) := if instruction &&& 0x0080 ≠ 0 then (dest, source) else (source, dest)
      return some ⟨"movep", some l, some size, source, dest, none⟩
    else do
      -- btst, bchg, bclr, bset with register
      let instr := if instruction &&& 0xf1c0 = 0x0100 then "btst"
        else if instruction &&& 0xf1c0 = 0x0140 then "bchg"
        else if instruction &&& 0xf1c0 = 0x0180 then "bclr" else "bset"
      let source := Operand.RegisterDirect (some (afs DATA_BYTE)) (idx Registers ((instruction >>> 9) &&& 7))
      let (dest, extra_dest) ← decode_effective_address cfg (instruction >>> 3) instruction
        (data.drop 2) (some (afs DATA_BYTE))
      -- dest.size = DATA_LONG (the enum value, not a byte count)
      let dest := dest.map (fun d => match d with
        | Operand.RegisterDirect _ r => Operand.RegisterDirect (some DATA_LONG) r
        | d => d)
      match dest with
      | none => return none
      | some _ => do
        let l ← pyAdd 2 extra_dest
        return some ⟨instr, some l, none, some source, dest, none⟩
  else if instruction &&& 0xff00 = 0x0e00 then do
    -- moves
    let extra ← readU16 data 2
    let size := (instruction >>> 6) &&& 3
    let asz ← actualFormatSize (some size)
    let dest := some (Operand.RegisterDirect (some asz) (idx Registers (extra >>> 12)))
    let (source, extra_source) ← decode_effective_address cfg (instruction >>> 3) instruction
      (data.drop 4) (some asz)
    let (source, dest) := if extra &&& 0x0800 ≠ 0 then (dest, source) else (source, dest)
    match extra_source with
    | none => return none
    | some es => return some ⟨"moves", some (4 + es), some size, source, dest, none⟩
  else
    return none

/-- `decode_instruction`, nibbles `0x1`/`0x2`/`0x3` (move). -/
def decode_move (cfg : Variant) (operation_code instruction : Nat) (data : List Nat) :
    Py (Option Decoded) := do
  let size := if operation_code = 0x1 then DATA_BYTE
    else if operation_code = 0x2 then DATA_LONG else DATA_WORD
  let (source, extra_source) ← decode_effective_address cfg (instruction >>> 3) instruction
    (data.drop 2) (some (afs size))
  match source with
  | none => return none
  | some _ => do
    let o ← pyAdd 2 extra_source
    let (dest, extra_dest) ← decode_effective_address cfg (instruction >>> 6) (instruction >>> 9)
      (data.drop o) (some (afs size))
    match dest with
    | none => return none
    | some d =>
      match d with
      | Operand.Immediate _ _ => return none
      | _ => do
        let instr :=
          match d with
          | Operand.RegisterDirect _ r => if isAddressRegisterName r then "movea" else "move"
          | _ => "move"
        let l1 ← pyAdd 2 extra_source
        let l ← pyAdd l1 extra_dest
        return some ⟨instr, some l, some size, source, dest, none⟩

/-- The mutable locals of the source while decoding nibble `0x4`
(`extra_source`/`extra_dest` start at the integer 0, not `None`). -/
structure D4 : Type where
  instr : Option String := none
  size : Option Nat := none
  source : Option Operand := none
  dest : Option Operand := none
  third : Option Operand := none
  extra_source : Option Nat := some 0
  extra_dest : Option Nat := some 0
  skip_ea : Bool := false
deriving DecidableEq, Repr

/-- `decode_instruction`, nibble `0x4`, branch bodies (everything before
the shared tail `if instr is not None: ...`). -/
def decode_op4_state (cfg : Variant) (instruction : Nat) (data : List Nat) : Py D4 := do
  let msb := instruction >>> 8
  if instruction &&& 0xf100 = 0x4100 then
    -- lea, extb, chk
    if instruction &&& 0xf1c0 = 0x41c0 then
      if instruction &&& 0x0038 ≠ 0 then
        pure { instr := some "lea", size := some DATA_LONG,
               dest := some (.RegisterDirect (some (afs DATA_LONG))
                 (idx Registers (((instruction >>> 9) &&& 7) + 8))) }
      else
        pure { instr := some "extb", size := some DATA_LONG }
    else do
      let size := if instruction &&& 0x0080 ≠ 0 then DATA_WORD else DATA_LONG
      let asz ← actualFormatSize (some size)
      pure { instr := some "chk", size := some size,
             dest := some (.RegisterDirect (some asz) (idx Registers ((instruction >>> 9) &&& 7))) }
  else if msb = 0x40 then
    if instruction &&& 0xffc0 = 0x40c0 then
      -- move from sr
      pure { instr := some "move", size := some DATA_WORD,
             source := some (.RegisterDirect (some (afs DATA_WORD)) "sr") }
    else
      pure { instr := some "negx", size := some (instruction >>> 6) }
  else if msb = 0x42 then
    if instruction &&& 0xffc0 = 0x42c0 then
      -- move to ccr
      pure { instr := some "move", size := some DATA_WORD,
             source := some (.RegisterDirect (some (afs DATA_WORD)) "ccr") }
    else
      pure { instr := some "clr", size := some (instruction >>> 6) }
  else if msb = 0x44 then
    if instruction &&& 0xffc0 = 0x44c0 then
      -- move from ccr
      pure { instr := some "move", size := some DATA_WORD,
             dest := some (.RegisterDirect (some (afs DATA_WORD)) "ccr") }
    else
      pure { instr := some "neg", size := some (instruction >>> 6) }
  else if msb = 0x46 then
    if instruction &&& 0xffc0 = 0x46c0 then
      -- move from sr
      pure { instr := some "move", size := some DATA_WORD,
             dest := some (.RegisterDirect (some (afs DATA_WORD)) "sr") }
    else
      pure { instr := some "not", size := some (instruction >>> 6) }
  else if msb = 0x48 ∨ msb = 0x4c then
    if instruction &&& 0xfff8 = 0x4808 then do
      let (dest, ed) ← decode_effective_address cfg 7 4 (data.drop 2) (some (afs DATA_LONG))
      pure { instr := some "link", size := some DATA_LONG, dest := dest, extra_dest := ed }
    else if instruction &&& 0xffc0 = 0x4800 then do
      -- nbcd (extra_source is still 0 in data[2+extra_source:])
      let (dest, ed) ← decode_effective_address cfg (instruction >>> 3) instruction
        (data.drop 2) (some (afs DATA_BYTE))
      pure { instr := some "nbcd", dest := dest, extra_dest := ed, skip_ea := true }
    else if instruction &&& 0xfb80 = 0x4880 then do
      let size := if instruction &&& 0x0040 ≠ 0 then DATA_LONG else DATA_WORD
      if instruction &&& 0x0038 ≠ 0 then do
        -- movem
        let extra_source := 2
        let extra ← readU16 data 2
        let reg_list :=
          if instruction &&& 0x0038 = 0x0020 then
            (List.range 16).filterMap (fun k =>
              if (extra <<< k) &&& 0x8000 ≠ 0 then some (idx Registers k) else none)
          else
            (List.range 16).filterMap (fun k =>
              if (extra >>> k) &&& 0x0001 ≠ 0 then some (idx Registers k) else none)
        let source := some (Operand.RegisterMovemList (some (afs size)) reg_list)
        let (dest, ed) ← decode_effective_address cfg (instruction >>> 3) instruction
          (data.drop (2 + extra_source)) (some (afs size))
        let st : D4 := { instr := some "movem", size := some size, source := source,
                         dest := dest, extra_source := some extra_source, extra_dest := ed,
                         skip_ea := true }
        if instruction &&& 0x0400 ≠ 0 then
          pure { st with source := st.dest, dest := st.source }
        else
          pure st
      else do
        -- ext (extra_source is still 0)
        let (dest, ed) ← decode_effective_address cfg (instruction >>> 3) instruction
          (data.drop 2) (some (afs size))
        let st : D4 := { instr := some "ext", size := some size, dest := dest, extra_dest := ed,
                         skip_ea := true }
        if instruction &&& 0x0400 ≠ 0 then
          pure { st with source := st.dest, dest := st.source }
        else
          pure st
    else if instruction &&& 0xfff8 = 0x4840 then do
      -- swap (extra_source is still 0)
      let (dest, ed) ← decode_effective_address cfg (instruction >>> 3) instruction
        (data.drop 2) (some (afs DATA_LONG))
      pure { instr := some "swap", dest := dest, extra_dest := ed, skip_ea := true }
    else if instruction &&& 0xfff8 = 0x4848 then
      pure { instr := some "bkpt",
             source := some (.Immediate (some (afs DATA_BYTE)) (some (Int.ofNat (instruction &&& 7)))),
             skip_ea := true }
    else if instruction &&& 0xffc0 = 0x4840 then
      -- pea
      pure { instr := some "pea", size := some DATA_LONG }
    else if msb = 0x4c then do
      -- muls, mulu, divs, divu, divsl, divul
      let size := DATA_LONG
      let extra_dest := 2
      let extra ← readU16 data 2
      let (source, es) ← decode_effective_address cfg (instruction >>> 3) instruction
        (data.drop (2 + extra_dest)) (some (afs size))
      let dh := idx Registers (extra &&& 7)
      let dl := idx Registers ((extra >>> 12) &&& 7)
      let dest0 := Operand.RegisterDirect (some (afs size)) dl
      let (instr, dest) :=
        if instruction &&& 0x0040 ≠ 0 then
          let instr := if extra &&& 0x0800 ≠ 0 then "divs" else "divu"
          if extra &&& 0x0400 ≠ 0 then
            (instr, Operand.RegisterDirectPair (some (afs size)) dh dl)
          else if dh ≠ dl then
            (instr ++ "l", Operand.RegisterDirectPair (some (afs size)) dh dl)
          else
            (instr, dest0)
        else
          let instr := if extra &&& 0x0800 ≠ 0 then "muls" else "mulu"
          if extra &&& 0x0400 ≠ 0 then
            (instr, Operand.RegisterDirectPair (some (afs size)) dh dl)
          else
            (instr, dest0)
      pure { instr := some instr, size := some size, source := source, dest := some dest,
             extra_source := es, extra_dest := some extra_dest, skip_ea := true }
    else
      pure {}
  else if msb = 0x4a then
    -- bgnd, illegal, tas, tst
    if instruction = 0x4afa then
      pure { instr := some "bgnd", skip_ea := true }
    else if instruction = 0x4afc then
      pure { instr := some "illegal", skip_ea := true }
    else if instruction &&& 0xffc0 = 0x4ac0 then do
      let (dest, ed) ← decode_effective_address cfg (instruction >>> 3) instruction
        (data.drop 2) (some (afs DATA_BYTE))
      pure { instr := some "tas", dest := dest, extra_dest := ed, skip_ea := true }
    else
      pure { instr := some "tst", size := some (instruction >>> 6) }
  else if msb = 0x4e then
    if instruction &&& 0xfff0 = 0x4e40 then
      pure { instr := some "trap",
             source := some (.Immediate (some (afs DATA_BYTE)) (some (Int.ofNat (instruction &&& 15)))),
             skip_ea := true }
    else if instruction &&& 0xfff0 = 0x4e50 then
      if instruction &&& 0xfff8 = 0x4e50 then do
        let (dest, ed) ← decode_effective_address cfg 7 4 (data.drop 2) (some (afs DATA_WORD))
        pure { instr := some "link", dest := dest, extra_dest := ed,
               source := some (.RegisterDirect (some (afs DATA_LONG))
                 (idx Registers ((instruction &&& 7) + 8))),
               skip_ea := true }
      else
        pure { instr := some "unlk",
               source := some (.RegisterDirect (some (afs DATA_LONG))
                 (idx Registers ((instruction &&& 7) + 8))),
               skip_ea := true }
    else if instruction &&& 0xfff0 = 0x4e60 then
      -- move usp
      let source := some (Operand.RegisterDirect (some (afs DATA_LONG))
        (idx Registers ((instruction &&& 7) + 8)))
      let dest := some (Operand.RegisterDirect (some (afs DATA_LONG)) "usp")
      let (source, dest) := if instruction &&& 0x08 ≠ 0 then (dest, source) else (source, dest)
      pure { instr := some "move", size := some DATA_LONG, source := source, dest := dest,
             skip_ea := true }
    else if instruction = 0x4e70 then
      pure { instr := some "reset", skip_ea := true }
    else if instruction = 0x4e71 then
      pure { instr := some "nop", skip_ea := true }
    else if instruction = 0x4e72 then do
      let v ← readU16 data 2
      pure { instr := some "stop",
             source := some (.Immediate (some (afs DATA_WORD)) (some (v : Int))),
             extra_source := some 2, skip_ea := true }
    else if instruction = 0x4e73 then
      pure { instr := some "rte", skip_ea := true }
    else if instruction = 0x4e74 then do
      let (dest, ed) ← decode_effective_address cfg 7 4 (data.drop 2) (some (afs DATA_WORD))
      pure { instr := some "rtd", dest := dest, extra_dest := ed, skip_ea := true }
    else if instruction = 0x4e75 then
      pure { instr := some "rts", skip_ea := true }
    else if instruction = 0x4e76 then
      pure { instr := some "trapv", skip_ea := true }
    else if instruction = 0x4e77 then
      pure { instr := some "rtr", skip_ea := true }
    else if instruction &&& 0xfffe = 0x4e7a then do
      -- movec
      let extended ← readU16 data 2
      let control_reg := (cfg.control_registers.find? (fun p => p.fst = extended &&& 0x0fff)).map Prod.snd
      let reg := (extended >>> 12) &&& 15
      match control_reg with
      | none =>
          pure { instr := none, size := some DATA_LONG, extra_source := some 2, skip_ea := true }
      | some cr =>
          let source := some (Operand.RegisterDirect (some (afs DATA_LONG)) cr)
          let dest := some (Operand.RegisterDirect (some (afs DATA_LONG)) (idx Registers reg))
          let (source, dest) := if instruction &&& 1 ≠ 0 then (dest, source) else (source, dest)
          pure { instr := some "movec", size := some DATA_LONG, source := source, dest := dest,
                 extra_source := some 2, skip_ea := true }
    else if instruction &&& 0xff80 = 0x4e80 then do
      let instr := if instruction &&& 0xffc0 = 0x4e80 then "jsr" else "jmp"
      let (dest, ed) ← decode_effective_address cfg (instruction >>> 3) instruction
        (data.drop 2) (some (afs DATA_LONG))
      pure { instr := some instr, dest := dest, extra_dest := ed, skip_ea := true }
    else
      pure {}
  else
    pure {}

/-- `decode_instruction`, nibble `0x4`: branch bodies plus the shared
tail (`size &= 3`, the default effective-address decode and the final
length computation). -/
def decode_op4 (cfg : Variant) (instruction : Nat) (data : List Nat) :
    Py (Option Decoded) := do
  let st ← decode_op4_state cfg instruction data
  match st.instr with
  | none => return none
  | some instr => do
    let size := st.size.map (fun s => s &&& 3)
    let st ←
      if st.skip_ea then
        pure st
      else
        match st.dest with
        | none => do
          let o ← pyAdd 2 st.extra_source
          let asz ← actualFormatSize size
          let (d, ed) ← decode_effective_address cfg (instruction >>> 3) instruction
            (data.drop o) (some asz)
          pure { st with dest := d, extra_dest := ed }
        | some _ => do
          let o ← pyAdd 2 st.extra_dest
          let asz ← actualFormatSize size
          let (s, es) ← decode_effective_address cfg (instruction >>> 3) instruction
            (data.drop o) (some asz)
          pure { st with source := s, extra_source := es }
    match st.extra_source, st.extra_dest with
    | some es, some ed =>
        return some ⟨instr, some (2 + es + ed), size, st.source, st.dest, st.third⟩
    | _, _ => return none

/-- `decode_instruction`, nibble `0x5` (ADDQ/SUBQ/Scc/DBcc/TRAPcc). -/
def decode_op5 (cfg : Variant) (instruction : Nat) (data : List Nat) :
    Py (Option Decoded) := do
  if instruction &&& 0xf0c0 = 0x50c0 then
    if instruction &&& 0xf0f8 = 0x50c8 then do
      -- dbcc
      let instr := "db" ++ idx Condition ((instruction >>> 8) &&& 0xf)
      let source := Operand.RegisterDirect (some (afs DATA_WORD)) (idx Registers (instruction &&& 7))
      let d ← readS16 data 2
      let dest := Operand.RegisterIndirectDisplacement (some (afs DATA_LONG)) "pc" d
      return some ⟨instr, some 4, none, some source, some dest, none⟩
    else if instruction &&& 0xf0ff = 0x50fa ∨ instruction &&& 0xf0ff = 0x50fb ∨
        instruction &&& 0xf0ff = 0x50fc then do
      -- trapcc
      let instr := "trap" ++ idx Condition ((instruction >>> 8) &&& 0xf)
      if instruction &&& 7 = 2 then do
        let v ← readU16 data 2
        return some ⟨instr, some 4, none,
          some (.Immediate (some (afs DATA_WORD)) (some (v : Int))), none, none⟩
      else if instruction &&& 7 = 3 then do
        let v ← readU32 data 2
        return some ⟨instr, some 6, none,
          some (.Immediate (some (afs DATA_LONG)) (some (v : Int))), none, none⟩
      else if instruction &&& 7 = 4 then
        return some ⟨instr, some 2, none, none, none, none⟩
      else
        return some ⟨instr, none, none, none, none, none⟩
    else do
      -- scc
      let instr := "s" ++ idx Condition ((instruction >>> 8) &&& 0xf)
      let (dest, ed) ← decode_effective_address cfg (instruction >>> 3) instruction
        (data.drop 2) (some (afs DATA_BYTE))
      match ed with
      | none => return none
      | some ed => return some ⟨instr, some (2 + ed), some DATA_BYTE, none, dest, none⟩
  else do
    let instr := if instruction &&& 0x0100 ≠ 0 then "subq" else "addq"
    let val := (instruction >>> 9) &&& 7
    let val := if val = 0 then 8 else val
    let size := (instruction >>> 6) &&& 3
    let source := Operand.Immediate (some (afs DATA_BYTE)) (some (val : Int))
    let asz ← actualFormatSize (some size)
    let (dest, ed) ← decode_effective_address cfg (instruction >>> 3) instruction
      (data.drop 2) (some asz)
    match ed with
    | none => return none
    | some ed => return some ⟨instr, some (2 + ed), some size, some source, dest, none⟩

/-- `decode_instruction`, nibble `0x6` (Bcc/BSR/BRA). -/
def decode_op6 (instruction : Nat) (data : List Nat) : Py (Option Decoded) := do
  let msb := instruction >>> 8
  let instr := if msb = 0x60 then "bra" else if msb = 0x61 then "bsr"
    else "b" ++ idx Condition ((instruction >>> 8) &&& 0xf)
  let val := instruction &&& 0xff
  let (val, length) ←
    if val = 0 then do
      let v ← readS16 data 2
      pure (v, 4)
    else if val = 0xff then do
      let v ← readU32 data 2
      pure ((v : Int), 6)
    else
      pure (if val &&& 0x80 ≠ 0 then (val : Int) - 256 else (val : Int), 2)
  let dest := Operand.RegisterIndirectDisplacement (some (afs DATA_LONG)) "pc" val
  return some ⟨instr, some length, none, none, some dest, none⟩

/-- `decode_instruction`, nibble `0x7` (MOVEQ). -/
def decode_op7 (instruction : Nat) : Py (Option Decoded) := do
  let val := instruction &&& 0xff
  let val := if val &&& 0x80 ≠ 0 then val ||| 0xffffff00 else val
  return some ⟨"moveq", some 2, some DATA_LONG,
    some (.Immediate (some (afs DATA_LONG)) (some (val : Int))),
    some (.RegisterDirect (some (afs DATA_LONG)) (idx Registers ((instruction >>> 9) &&& 7))),
    none⟩

/-- `decode_instruction`, nibble `0x8` (OR/DIV/SBCD/PACK/UNPK). -/
def decode_op8 (cfg : Variant) (instruction : Nat) (data : List Nat) :
    Py (Option Decoded) := do
  if instruction &&& 0xf0c0 = 0x80c0 then do
    -- divs/divu (word form)
    let instr := if instruction &&& 0x0100 ≠ 0 then "divs" else "divu"
    let size := DATA_WORD
    let dest := Operand.RegisterDirect (some (afs size)) (idx Registers ((instruction >>> 9) &&& 7))
    let (source, es) ← decode_effective_address cfg (instruction >>> 3) instruction
      (data.drop 2) (some (afs size))
    match es with
    | none => return none
    | some es => return some ⟨instr, some (2 + es), some size, source, some dest, none⟩
  else if instruction &&& 0xf1f0 = 0x8100 then do
    -- sbcd
    let dest := Operand.RegisterDirect (some (afs DATA_BYTE)) (idx Registers ((instruction >>> 9) &&& 7))
    let source := Operand.RegisterDirect (some (afs DATA_BYTE)) (idx Registers (instruction &&& 7))
    let (source, dest) :=
      if instruction &&& 8 ≠ 0 then
        (Operand.RegisterIndirectPredecrement (some (afs DATA_BYTE))
           (idx Registers ((instruction &&& 7) + 8)),
         Operand.RegisterIndirectPredecrement (some (afs DATA_BYTE))
           (idx Registers (((instruction >>> 9) &&& 7) + 8)))
      else
        (source, dest)
    return some ⟨"sbcd", some 2, none, some source, some dest, none⟩
  else if instruction &&& 0xf130 = 0x8100 then do
    -- pack, unpk
    let (instr, source, dest) :=
      if instruction &&& 0x0040 ≠ 0 then
        if instruction &&& 8 ≠ 0 then
          ("pack",
           Operand.RegisterIndirectPredecrement (some (afs DATA_WORD))
             (idx Registers ((instruction &&& 7) + 8)),
           Operand.RegisterIndirectPredecrement (some (afs DATA_BYTE))
             (idx Registers (((instruction >>> 9) &&& 7) + 8)))
        else
          ("pack",
           Operand.RegisterDirect (some (afs DATA_WORD)) (idx Registers (instruction &&& 7)),
           Operand.RegisterDirect (some (afs DATA_BYTE)) (idx Registers ((instruction >>> 9) &&& 7)))
      else
        if instruction &&& 8 ≠ 0 then
          ("unpk",
           Operand.RegisterIndirectPredecrement (some (afs DATA_BYTE))
             (idx Registers ((instruction &&& 7) + 8)),
           Operand.RegisterIndirectPredecrement (some (afs DATA_WORD))
             (idx Registers (((instruction >>> 9) &&& 7) + 8)))
        else
          ("unpk",
           Operand.RegisterDirect (some (afs DATA_BYTE)) (idx Registers (instruction &&& 7)),
           Operand.RegisterDirect (some (afs DATA_WORD)) (idx Registers ((instruction >>> 9) &&& 7)))
    let v ← readU16 data 2
    let third := Operand.Immediate (some (afs DATA_WORD)) (some (v : Int))
    return some ⟨instr, some 4, none, some source, some dest, some third⟩
  else do
    -- or
    let opmode := (instruction >>> 6) &&& 0x7
    let size := (instruction >>> 6) &&& 3
    let asz ← actualFormatSize (some size)
    let dest := Operand.RegisterDirect (some asz) (idx Registers ((instruction >>> 9) &&& 7))
    let (source, es) ← decode_effective_address cfg (instruction >>> 3) instruction
      (data.drop 2) (some asz)
    let (source, dest) := if opmode &&& 4 ≠ 0 then (some dest, source) else (source, some dest)
    match es with
    | none => return none
    | some es => return some ⟨"or", some (2 + es), some size, source, dest, none⟩

/-- `decode_instruction`, nibble `0x9` (SUB/SUBA/SUBX). -/
def decode_op9 (cfg : Variant) (instruction : Nat) (data : List Nat) :
    Py (Option Decoded) := do
  let opmode := (instruction >>> 6) &&& 0x7
  let (instr, size, dest) ←
    if opmode = 0x03 ∨ opmode = 0x07 then do
      let size := if opmode = 0x03 then DATA_WORD else DATA_LONG
      pure ("suba", size, Operand.RegisterDirect (some (afs DATA_LONG))
        (idx Registers (((instruction >>> 9) &&& 7) + 8)))
    else do
      let size := (instruction >>> 6) &&& 3
      let asz ← actualFormatSize (some size)
      pure ("sub", size, Operand.RegisterDirect (some asz)
        (idx Registers ((instruction >>> 9) &&& 7)))
  let asz ← actualFormatSize (some size)
  let (source, es) ← decode_effective_address cfg (instruction >>> 3) instruction
    (data.drop 2) (some asz)
  let (instr, source, dest) :=
    if instr = "sub" ∧ opmode &&& 4 ≠ 0 then
      match source with
      | some (Operand.RegisterDirect s0 sr) =>
          if isAddressRegisterName sr then
            ("subx",
             some (Operand.RegisterIndirectPredecrement (some asz) sr),
             some (Operand.RegisterIndirectPredecrement (some asz) dest.reg))
          else
            ("subx", some (Operand.RegisterDirect s0 sr), some dest)
      | _ => (instr, some dest, source)
    else
      (instr, source, some dest)
  match es with
  | none => return none
  | some es => return some ⟨instr, some (2 + es), some size, source, dest, none⟩

/-- `decode_instruction`, nibble `0xb` (CMP/CMPA/CMPM/EOR). -/
def decode_opB (cfg : Variant) (instruction : Nat) (data : List Nat) :
    Py (Option Decoded) := do
  let opmode := (instruction >>> 6) &&& 0x7
  let (instr, size, dest) ←
    if opmode = 0x03 ∨ opmode = 0x07 then do
      let size := if opmode = 0x03 then DATA_WORD else DATA_LONG
      let asz ← actualFormatSize (some size)
      pure ("cmpa", size, Operand.RegisterDirect (some asz)
        (idx Registers (((instruction >>> 9) &&& 7) + 8)))
    else do
      let size := (instruction >>> 6) &&& 3
      let asz ← actualFormatSize (some size)
      pure ("cmp", size, Operand.RegisterDirect (some asz)
        (idx Registers ((instruction >>> 9) &&& 7)))
  let asz ← actualFormatSize (some size)
  let (source, es) ← decode_effective_address cfg (instruction >>> 3) instruction
    (data.drop 2) (some asz)
  let (instr, source, dest) :=
    if instr = "cmp" ∧ opmode &&& 4 ≠ 0 then
      if instruction &&& 0x0038 = 0x0008 then
        ("cmpm",
         some (Operand.RegisterIndirectPostincrement (some asz)
           (idx Registers (instruction &&& 15))),
         some (Operand.RegisterIndirectPostincrement (some asz)
           (idx Registers (((instruction >>> 9) &&& 7) + 8))))
      else
        ("eor", some dest, source)
    else
      (instr, source, some dest)
  match es with
  | none => return none
  | some es => return some ⟨instr, some (2 + es), some size, source, dest, none⟩

/-- `decode_instruction`, nibble `0xc` (AND/MUL/ABCD/EXG). -/
def decode_opC (cfg : Variant) (instruction : Nat) (data : List Nat) :
    Py (Option Decoded) := do
  if instruction &&& 0xf0c0 = 0xc0c0 then do
    -- muls/mulu (word form)
    let instr := if instruction &&& 0x0100 ≠ 0 then "muls" else "mulu"
    let size := DATA_WORD
    let (source, es) ← decode_effective_address cfg (instruction >>> 3) instruction
      (data.drop 2) (some (afs size))
    let dest := Operand.RegisterDirect (some (afs size)) (idx Registers ((instruction >>> 9) &&& 7))
    match es with
    | none => return none
    | some es => return some ⟨instr, some (2 + es), some size, source, some dest, none⟩
  else if instruction &&& 0xf130 = 0xc100 then
    if instruction &&& 0xf1f0 = 0xc100 then do
      -- abcd
      let (source, dest) :=
        if instruction &&& 0x0008 ≠ 0 then
          (Operand.RegisterIndirectPredecrement (some (afs DATA_BYTE))
             (idx Registers ((instruction &&& 7) + 8)),
           Operand.RegisterIndirectPredecrement (some (afs DATA_BYTE))
             (idx Registers (((instruction >>> 9) &&& 7) + 8)))
        else
          (Operand.RegisterDirect (some (afs DATA_BYTE)) (idx Registers (instruction &&& 7)),
           Operand.RegisterDirect (some (afs DATA_BYTE)) (idx Registers ((instruction >>> 9) &&& 7)))
      return some ⟨"abcd", some 2, none, some source, some dest, none⟩
    else do
      -- exg
      let size := DATA_LONG
      let source := Operand.RegisterDirect (some (afs size)) (idx Registers ((instruction >>> 9) &&& 7))
      let dest := Operand.RegisterDirect (some (afs size)) (idx Registers (instruction &&& 7))
      let (source, dest) :=
        if instruction &&& 0xf1f8 = 0xc148 then
          (Operand.RegisterIndirectPredecrement (some (afs size))
             (idx Registers (((instruction >>> 9) &&& 7) + 8)),
           Operand.RegisterIndirectPredecrement (some (afs size))
             (idx Registers ((instruction &&& 7) + 8)))
        else
          (source, dest)
      let dest :=
        if instruction &&& 0xf1f8 = 0xc188 then
          Operand.RegisterIndirectPredecrement (some (afs size))
            (idx Registers ((instruction &&& 7) + 8))
        else
          dest
      return some ⟨"exg", some 2, some size, some source, some dest, none⟩
  else do
    -- and
    let opmode := (instruction >>> 6) &&& 0x7
    let size := (instruction >>> 6) &&& 3
    let asz ← actualFormatSize (some size)
    let dest := Operand.RegisterDirect (some asz) (idx Registers ((instruction >>> 9) &&& 7))
    let (source, es) ← decode_effective_address cfg (instruction >>> 3) instruction
      (data.drop 2) (some asz)
    let (source, dest) := if opmode &&& 4 ≠ 0 then (some dest, source) else (source, some dest)
    match es with
    | none => return none
    | some es => return some ⟨"and", some (2 + es), some size, source, dest, none⟩

/-- `decode_instruction`, nibble `0xd` (ADD/ADDA/ADDX). -/
def decode_opD (cfg : Variant) (instruction : Nat) (data : List Nat) :
    Py (Option Decoded) := do
  let opmode := (instruction >>> 6) &&& 0x7
  let (instr, size, dest) ←
    if opmode = 0x03 ∨ opmode = 0x07 then do
      let size := if opmode = 0x03 then DATA_WORD else DATA_LONG
      pure ("adda", size, Operand.RegisterDirect (some (afs DATA_LONG))
        (idx Registers (((instruction >>> 9) &&& 7) + 8)))
    else do
      let size := (instruction >>> 6) &&& 3
      let asz ← actualFormatSize (some size)
      pure ("add", size, Operand.RegisterDirect (some asz)
        (idx Registers ((instruction >>> 9) &&& 7)))
  let asz ← actualFormatSize (some size)
  let (source, es) ← decode_effective_address cfg (instruction >>> 3) instruction
    (data.drop 2) (some asz)
  let (instr, source, dest) :=
    if instr = "add" ∧ opmode &&& 4 ≠ 0 then
      match source with
      | some (Operand.RegisterDirect s0 sr) =>
          if isAddressRegisterName sr then
            ("addx",
             some (Operand.RegisterIndirectPredecrement (some asz) sr),
             some (Operand.RegisterIndirectPredecrement (some asz) dest.reg))
          else
            ("addx", some (Operand.RegisterDirect s0 sr), some dest)
      | _ => (instr, some dest, source)
    else
      (instr, source, some dest)
  match es with
  | none => return none
  | some es => return some ⟨instr, some (2 + es), some size, source, dest, none⟩

/-- `decode_instruction`, nibble `0xe` (shift/rotate/bit field). -/
def decode_opE (cfg : Variant) (instruction : Nat) (data : List Nat) :
    Py (Option Decoded) := do
  if instruction &&& 0xF8C0 = 0xE0C0 then do
    -- shift/rotate on memory
    let size := DATA_WORD
    let direction := (instruction >>> 8) &&& 1
    let style := (instruction >>> 9) &&& 3
    let (dest, ed) ← decode_effective_address cfg (instruction >>> 3) instruction
      (data.drop 2) (some (afs size))
    let instr := idx ShiftStyle style ++ (if direction ≠ 0 then "l" else "r")
    match ed with
    | none => return none
    | some ed => return some ⟨instr, some (2 + ed), some size, none, dest, none⟩
  else if instruction &&& 0xF8C0 = 0xE8C0 then do
    -- bit field instructions
    let style := (instruction >>> 8) &&& 0x7
    let instr := "bf" ++ idx BitfieldStyle style
    let (dest, ed) ← decode_effective_address cfg (instruction >>> 3) instruction
      (data.drop 4) (some (afs DATA_LONG))
    let length := 4
    let length := match ed with | some ed => length + ed | none => length
    return some ⟨instr, some length, none, none, dest, none⟩
  else do
    -- shift/rotate on a register
    let size := (instruction >>> 6) &&& 3
    let direction := (instruction >>> 8) &&& 1
    let style := (instruction >>> 3) &&& 3
    let source :=
      if (instruction >>> 5) &&& 1 ≠ 0 then
        Operand.RegisterDirect (some (afs DATA_LONG)) (idx Registers ((instruction >>> 9) &&& 7))
      else
        let val := (instruction >>> 9) &&& 7
        let val := if val = 0 then 8 else val
        Operand.Immediate (some (afs DATA_BYTE)) (some (val : Int))
    let asz ← actualFormatSize (some size)
    let dest := Operand.RegisterDirect (some asz) (idx Registers (instruction &&& 7))
    let instr := idx ShiftStyle style ++ (if direction ≠ 0 then "l" else "r")
    return some ⟨instr, some 2, some size, some source, some dest, none⟩

/-- `decode_instruction`, nibble `0xf` (FP and cache/MMU operations). -/
def decode_opF (cfg : Variant) (instruction : Nat) (data : List Nat) :
    Py (Option Decoded) := do
  if instruction &&& 0xfe00 = 0xf200 then do
    let fp_operation_code := (instruction >>> 6) &&& 7
    if fp_operation_code = 0 then do
      let length := 4
      let extra ← readU16 data 2
      let sub_fp_operation_code := extra >>> 13
      if sub_fp_operation_code &&& 5 = 0 then do
        let destination_register := (extra >>> 7) &&& 7
        let source_specifier := (extra >>> 10) &&& 7
        let opmode := extra &&& 0x7f
        let r_m := (extra >>> 14) &&& 1
        let (size, source, dest, length) ←
          if r_m = 0 then
            pure (some FP_DATA_REGISTER,
              some (Operand.FPRegisterDirect (fpAfs FP_DATA_REGISTER)
                (idx FP_Registers source_specifier)),
              some (Operand.FPRegisterDirect (fpAfs FP_DATA_REGISTER)
                (idx FP_Registers destination_register)),
              length)
          else
            if source_specifier = 7 then
              -- fmovecr: unsupported
              pure (none, none, none, length)
            else do
              let dest := some (Operand.FPRegisterDirect (fpAfs FP_DATA_REGISTER)
                (idx FP_Registers destination_register))
              let size := source_specifier
              let (source, es) ← fp_decode_effective_address cfg (instruction >>> 3) instruction
                (data.drop length) (fpAfs size) (some size)
              let length := match es with | some es => length + es | none => length
              pure (some size, source, dest, length)
        let instr : Option String :=
          if opmode >>> 3 = 6 then
            -- fsincos: unsupported
            none
          else
            let instr_sig := opmode &&& 0x3b
            if opmode = 4 ∨ opmode &&& 0x63 = 0x41 then some "fsqrt"
            else if instr_sig = 0 then some "fmove"
            else if instr_sig = 0x18 then some "fabs"
            else if instr_sig = 0x1a then some "fneg"
            else if instr_sig = 0x20 then some "fdiv"
            else if instr_sig = 0x22 then some "fadd"
            else if instr_sig = 0x23 then some "fmul"
            else if instr_sig = 0x28 then some "fsub"
            else if instr_sig = 0x38 then some "fcmp"
            else if instr_sig = 0x3a then some "ftst"
            else none
        let instr :=
          match instr with
          | some i =>
              if opmode >>> 6 ≠ 0 then
                if (opmode >>> 2) &&& 1 = 1 then some ("fd" ++ i.drop 1)
                else some ("fs" ++ i.drop 1)
              else
                some i
          | none => none
        match instr with
        | none => return none
        | some i => return some ⟨i, some length, size, source, dest, none⟩
      else if sub_fp_operation_code = 3 then do
        -- fmove FP register -> <ea>
        let source_register := (extra >>> 7) &&& 7
        let source := some (Operand.FPRegisterDirect (fpAfs FP_DATA_REGISTER)
          (idx FP_Registers source_register))
        let size := (extra >>> 10) &&& 7
        let (dest, ed) ← fp_decode_effective_address cfg (instruction >>> 3) instruction
          (data.drop length) (fpAfs size) (some size)
        let length := match ed with | some ed => length + ed | none => length
        return some ⟨"fmove", some length, some size, source, dest, none⟩
      else if sub_fp_operation_code &&& 6 = 4 then do
        -- fmove FP system control register(s) <-> <ea>
        let size := FP_DATA_SCREGISTER
        let (source, es) ← fp_decode_effective_address cfg (instruction >>> 3) instruction
          (data.drop length) (fpAfs size) (some size)
        let length := match es with | some es => length + es | none => length
        let fpscr := (extra >>> 10) &&& 7
        let (instr, dest) :=
          match FP_SCRegisters.find? (fun p => p.fst = fpscr) with
          | some p =>
              ("fmove", some (Operand.FPRegisterDirect (fpAfs FP_DATA_SCREGISTER) p.snd))
          | none =>
              ("fmovem", some (Operand.FPSCRegisterMovemList (fpAfs FP_DATA_SCREGISTER)
                (FP_SCRegisters.filterMap (fun p =>
                  if p.fst &&& fpscr ≠ 0 then some p.snd else none))))
        let (source, dest) := if (extra >>> 13) &&& 1 = 1 then (dest, source) else (source, dest)
        return some ⟨instr, some length, some size, source, dest, none⟩
      else if sub_fp_operation_code &&& 6 = 6 then do
        -- fmove multiple FP data registers <-> <ea>
        let size := FP_DATA_EXTENDED_PRECISION
        let (source, es) ← fp_decode_effective_address cfg (instruction >>> 3) instruction
          (data.drop length) (fpAfs size) (some size)
        let length := match es with | some es => length + es | none => length
        let mode_field := (extra >>> 11) &&& 3
        let dest :=
          if mode_field = 0 ∨ mode_field = 2 then
            let registers_list := extra &&& 0xff
            some (Operand.FPRegisterMovemList (fpAfs FP_DATA_REGISTER)
              ((List.range FP_Registers.length).filterMap (fun i =>
                if (1 <<< (if mode_field ≠ 0 then FP_Registers.length - 1 - i else i)) &&&
                    registers_list ≠ 0
                then some (idx FP_Registers i) else none)))
          else
            some (Operand.RegisterDirect (some (afs DATA_BYTE))
              (idx Registers ((extra >>> 4) &&& 7)))
        let (source, dest) := if (extra >>> 13) &&& 1 = 1 then (dest, source) else (source, dest)
        return some ⟨"fmovem", some length, some size, source, dest, none⟩
      else
        -- sub_fp_operation_code = 1: nothing decoded
        return none
    else if fp_operation_code = 1 then do
      let extra ← readU16 data 2
      let mode := (instruction >>> 3) &&& 7
      let trap_mode_field := instruction &&& 7
      if mode = 1 then
        -- FDBcc: unsupported
        return none
      else if mode = 7 ∧ trap_mode_field > 1 then do
        let condition := extra &&& 0x3f
        if condition < FP_Condition.length then do
          -- ftrapcc
          let instr := "ftrap" ++ idx FP_Condition condition
          let length := 4
          if trap_mode_field &&& 2 = 2 then do
            let register := 4
            let size := if trap_mode_field = 2 then FP_DATA_WORD else FP_DATA_LONG
            let (dest, ed) ← fp_decode_effective_address cfg mode register
              (data.drop length) (fpAfs size) (some size)
            let length := match ed with | some ed => length + ed | none => length
            return some ⟨instr, some length, some size, none, dest, none⟩
          else
            return some ⟨instr, some length, none, none, none, none⟩
        else
          return none
      else do
        let condition := extra &&& 0x3f
        if condition < FP_Condition.length then do
          -- fscc
          let instr := "fs" ++ idx FP_Condition condition
          let size := FP_DATA_BYTE
          let length := 4
          let (dest, ed) ← fp_decode_effective_address cfg (instruction >>> 3) instruction
            (data.drop length) (fpAfs size) (some size)
          let length := match ed with | some ed => length + ed | none => length
          return some ⟨instr, some length, some size, none, dest, none⟩
        else
          return none
    else if fp_operation_code &&& 2 = 2 then do
      let condition := instruction &&& 0x3f
      if condition < FP_Condition.length then do
        -- fbcc
        let instr := "fb" ++ idx FP_Condition condition
        let (displacement, length) ←
          if fp_operation_code &&& 1 = 0 then do
            let v ← readS16 data 2
            pure (v, 4)
          else do
            let v ← readU32 data 2
            pure ((v : Int), 6)
        let dest := Operand.RegisterIndirectDisplacement (some (afs DATA_LONG)) "pc" displacement
        return some ⟨instr, some length, none, none, some dest, none⟩
      else
        return none
    else if fp_operation_code &&& 4 = 4 then do
      -- fsave / frestore
      let instr := if fp_operation_code = 4 then "fsave" else "frestore"
      let length := 2
      let (source, es) ← fp_decode_effective_address cfg (instruction >>> 3) instruction
        (data.drop length) 96 none
      let length := match es with | some es => length + es | none => length
      return some ⟨instr, some length, none, source, none, none⟩
    else
      return none
  else if instruction &&& 0xff20 = 0xf400 then
    return some ⟨"cinv", some 2, none, none, none, none⟩
  else if instruction &&& 0xff20 = 0xf420 then
    return some ⟨"cpush", some 2, none, none, none, none⟩
  else if instruction &&& 0xffe0 = 0xf500 then
    return some ⟨"pflush", some 2, none, none, none, none⟩
  else if instruction &&& 0xff80 = 0xff80 then
    -- the source assigns 'illFF' to the local holding the opcode word
    -- (a slip), so nothing is decoded and the sentinel is returned
    return none
  else
    return none

/-- The top-nibble dispatch of `decode_instruction`. -/
def decode_dispatch (cfg : Variant) (operation_code instruction : Nat)
    (data : List Nat) : Py (Option Decoded) :=
  if operation_code = 0x0 then decode_op0 cfg instruction data
  else if operation_code = 0x1 ∨ operation_code = 0x2 ∨ operation_code = 0x3 then
    decode_move cfg operation_code instruction data
  else if operation_code = 0x4 then decode_op4 cfg instruction data
  else if operation_code = 0x5 then decode_op5 cfg instruction data
  else if operation_code = 0x6 then decode_op6 instruction data
  else if operation_code = 0x7 then decode_op7 instruction
  else if operation_code = 0x8 then decode_op8 cfg instruction data
  else if operation_code = 0x9 then decode_op9 cfg instruction data
  else if operation_code = 0xa then
    -- (unassigned, reserved)
    pure none
  else if operation_code = 0xb then decode_opB cfg instruction data
  else if operation_code = 0xc then decode_opC cfg instruction data
  else if operation_code = 0xd then decode_opD cfg instruction data
  else if operation_code = 0xe then decode_opE cfg instruction data
  else if operation_code = 0xf then decode_opF cfg instruction data
  else pure none

/-- `decode_instruction` of the source: two-level dispatch on the top
opcode nibble.  Every failure path of the source returns
`error_value = ('unimplemented', len(data), None, None, None, None)`;
the per-nibble helpers above return `none` for those paths, which the
final match of this definition maps to `error_value`. -/
def decode_instruction (cfg : Variant) (data : List Nat) (_addr : Nat) :
    Py Decoded := do
  if data.length < 2 then
    return error_value data
  let instruction ← readU16 data 0
  let msb := instruction >>> 8
  let operation_code := msb >>> 4
  let r ← decode_dispatch cfg operation_code instruction data
  match r with
  | none => return error_value data
  | some d => return d

/-- The `BranchType` values used by `perform_get_instruction_info`. -/
inductive BranchType : Type where
  | UnconditionalBranch
  | CallDestination
  | FunctionReturn
  | TrueBranch
  | FalseBranch
  | UnresolvedBranch
  | IndirectBranch
deriving DecidableEq, Repr

/-- `InstructionInfo`: the length plus the branches added via
`add_branch`, in call order, each with its optional target. -/
structure InstructionInfo : Type where
  length : Option Nat
  branches : List (BranchType × Option Int)
deriving DecidableEq, Repr

/-- The tuple of branch mnemonics tested by
`perform_get_instruction_info` (including `FBcc_Instructions`). -/
def branch_instruction_list : List String :=
  ["jmp", "jsr",
   "bra", "bsr", "bhi", "bls", "bcc", "bcs", "bne", "beq",
   "bvc", "bvs", "bpl", "bmi", "bge", "blt", "bgt", "ble",
   "dbt", "dbf", "dbhi", "dbls", "dbcc", "dbcs", "dbne",
   "dbeq", "dbvc", "dbvs", "dbpl", "dbmi", "dbge", "dblt",
   "dbgt", "dble"] ++ FBcc_Instructions

/-- `perform_get_instruction_info` of the source (the control-flow
analyzer): decodes and classifies the branch kind, returning `None` for
the `unimplemented` sentinel. -/
def perform_get_instruction_info (cfg : Variant) (data : List Nat) (addr : Nat) :
    Py (Option InstructionInfo) := do
  let d ← decode_instruction cfg data addr
  if d.instr = "unimplemented" then
    return none
  else do
    let branches ←
      if d.instr = "rtd" ∨ d.instr = "rte" ∨ d.instr = "rtr" ∨ d.instr = "rts" then
        pure [(BranchType.FunctionReturn, (none : Option Int))]
      else if d.instr ∈ branch_instruction_list then do
        let (bt, conditional) :=
          if d.instr = "jmp" ∨ d.instr = "bra" then (BranchType.UnconditionalBranch, false)
          else if d.instr = "jsr" ∨ d.instr = "bsr" then (BranchType.CallDestination, false)
          else (BranchType.UnresolvedBranch, true)
        let (bt, branch_dest) :=
          match d.dest with
          | some (Operand.Absolute _ a _ _) => (bt, some a)
          | some (Operand.RegisterIndirect _ r) =>
              if r = "pc" then (bt, some ((addr : Int) + 2))
              else (BranchType.UnresolvedBranch, (none : Option Int))
          | some (Operand.RegisterIndirectDisplacement _ r off) =>
              if r = "pc" then (bt, some ((addr : Int) + 2 + off))
              else (BranchType.UnresolvedBranch, none)
          | some (Operand.RegisterIndirectIndex _ _ _ _ _ _) =>
              (BranchType.UnresolvedBranch, none)
          | _ => (bt, none)
        if conditional then do
          let l ← pyAdd addr d.length
          if d.instr.take 2 = "db" then
            pure [(BranchType.TrueBranch, some (l : Int)),
                  (BranchType.FalseBranch, branch_dest)]
          else
            pure [(BranchType.TrueBranch, branch_dest),
                  (BranchType.FalseBranch, some (l : Int))]
        else
          if bt = BranchType.IndirectBranch ∨ bt = BranchType.UnresolvedBranch ∨
              branch_dest = none then
            pure [(bt, (none : Option Int))]
          else
            pure [(bt, branch_dest)]
      else
        pure []
    return some { length := d.length, branches := branches }

/-! ## The LLIL fragment model

The lifter fragments verified here (`movem`, `db<cond>`, `divs`/`divu`)
are modelled by an expression tree (`Expr`), emitted instructions (`LI`)
and labels (`Lbl`).  `il.append` order becomes list order;
`LowLevelILLabel()` objects become `Lbl.fresh` with creation-order
numbering; labels returned by `il.get_label_for_address` become
`Lbl.at_addr`.  The flag metadata passed to IL arithmetic helpers
(for example the `nzvc` of `il.div_unsigned`) is not represented inside
`Expr`; flag write annotations appear only on emitted `set_reg`/`store`
items, mirroring the `flags` argument of `get_dest_il`. -/

/-- LLIL flag conditions (the values of `ConditionMapping`). -/
inductive FlagCond : Type where
  | UGT | ULE | UGE | ULT | NE | E | NO | O | POS | NEG | SGE | SLT | SGT | SLE
deriving DecidableEq, Repr

/-- `ConditionMapping`: condition mnemonic suffix to LLIL flag condition. -/
def ConditionMapping : List (String × FlagCond) :=
  [("hi", .UGT), ("ls", .ULE), ("cc", .UGE), ("cs", .ULT),
   ("ne", .NE), ("eq", .E), ("vc", .NO), ("vs", .O),
   ("pl", .POS), ("mi", .NEG), ("ge", .SGE), ("lt", .SLT),
   ("gt", .SGT), ("le", .SLE)]

/-- An LLIL register name: an architecture register or `LLIL_TEMP(n)`. -/
inductive RName : Type where
  | r (name : String)
  | temp (n : Nat)
deriving DecidableEq, Repr

/-- LLIL expressions built by the lifter fragments. -/
inductive Expr : Type where
  | const (size : Nat) (val : Int)
  | const_pointer (size : Nat) (val : Int)
  | reg (size : Nat) (name : RName)
  | add (size : Nat) (a b : Expr)
  | sub (size : Nat) (a b : Expr)
  | mult (size : Nat) (a b : Expr)
  | div_unsigned (size : Nat) (a b : Expr)
  | div_signed (size : Nat) (a b : Expr)
  | mod_unsigned (size : Nat) (a b : Expr)
  | mod_signed (size : Nat) (a b : Expr)
  | and_expr (size : Nat) (a b : Expr)
  | or_expr (size : Nat) (a b : Expr)
  | xor_expr (size : Nat) (a b : Expr)
  | shift_left (size : Nat) (a b : Expr)
  | sign_extend (size : Nat) (a : Expr)
  | zero_extend (size : Nat) (a : Expr)
  | load (size : Nat) (a : Expr)
  | compare_equal (size : Nat) (a b : Expr)
  | flag_condition (c : FlagCond)
  | flag_bit (size : Nat) (flag : String) (bit : Nat)
  | unimpl
deriving DecidableEq, Repr

/-- An IL label: host label for an address, or a fresh
`LowLevelILLabel()` numbered in creation order. -/
inductive Lbl : Type where
  | at_addr (a : Int)
  | fresh (n : Nat)
deriving DecidableEq, Repr

/-- An emitted IL instruction (`il.append(...)` / `il.mark_label(...)`). -/
inductive LI : Type where
  | set_reg (size : Nat) (dest : RName) (value : Expr) (flags : String)
  | store (size : Nat) (addr value : Expr) (flags : String)
  | if_expr (cond : Expr) (t f : Lbl)
  | goto (l : Lbl)
  | jump (dest : Expr)
  | label (l : Lbl)
  | unimplemented_instr
deriving DecidableEq, Repr

/-- `get_address_il` for the operand classes used by the verified lifter
fragments (`addr` is `il.current_address`).  Operand classes outside
those fragments map to `Expr.unimpl`. -/
def get_address_il (addr : Nat) : Operand → Expr
  | .RegisterIndirect _ reg => .reg 4 (.r reg)
  | .RegisterIndirectPostincrement _ reg => .reg 4 (.r reg)
  | .RegisterIndirectPredecrement _ reg => .reg 4 (.r reg)
  | .RegisterIndirectDisplacement _ reg off =>
      if reg = "pc" then .const_pointer 4 ((addr : Int) + 2 + off)
      else .add 4 (.reg 4 (.r reg)) (.const 4 off)
  | _ => .unimpl

/-- `get_source_il` for the operand classes used by the verified lifter
fragments. -/
def get_source_il (addr : Nat) : Operand → Expr
  | .RegisterDirect size reg =>
      if reg = "ccr" then
        .or_expr 1 (.or_expr 1 (.or_expr 1 (.or_expr 1
          (.flag_bit 1 "c" 0) (.flag_bit 1 "v" 1)) (.flag_bit 1 "z" 2))
          (.flag_bit 1 "n" 3)) (.flag_bit 1 "x" 4)
      else .reg (size.getD 0) (.r reg)
  | .Immediate size v => .const (size.getD 0) (v.getD 0)
  | .RegisterIndirect size reg => .load (size.getD 0) (.reg 4 (.r reg))
  | .RegisterIndirectPostincrement size reg => .load (size.getD 0) (.reg 4 (.r reg))
  | .RegisterIndirectPredecrement size reg => .load (size.getD 0) (.reg 4 (.r reg))
  | op@(.RegisterIndirectDisplacement size _ _) => .load (size.getD 0) (get_address_il addr op)
  | _ => .unimpl

/-- `OpRegisterDirect.get_dest_il`: the register-direct destination
write.  Byte writes to a data register merge into the low 8 bits, word
writes merge into the low 16 bits, word writes to an address register
sign-extend, byte writes to an address register are unimplemented.
The final `if value:` truthiness test of the source (false only for the
expression with index 0) is modelled as always true. -/
def OpRegisterDirect_get_dest_il (size : Option Nat) (reg : String)
    (value : Expr) (flags : String) : LI :=
  if reg = "ccr" then
    .unimplemented_instr
  else if size = some (afs DATA_BYTE) then
    if isAddressRegisterName reg then
      .unimplemented_instr
    else
      .set_reg 4 (.r reg)
        (.or_expr 4
          (.and_expr 4 (.const 4 0xffffff00) (.reg 4 (.r reg)))
          (.and_expr 4 (.const 4 0xff) value)) flags
  else if size = some (afs DATA_WORD) then
    if isAddressRegisterName reg then
      .set_reg 4 (.r reg) (.sign_extend 4 value) flags
    else
      .set_reg 4 (.r reg)
        (.or_expr 4
          (.and_expr 4 (.const 4 0xffff0000) (.reg 4 (.r reg)))
          (.and_expr 4 (.const 4 0xffff) value)) flags
  else
    .set_reg 4 (.r reg) value flags

/-- `get_dest_il` dispatch for the operand classes used by the verified
lifter fragments. -/
def get_dest_il (op : Operand) (value : Expr) (flags : String) : LI :=
  match op with
  | .RegisterDirect size reg => OpRegisterDirect_get_dest_il size reg value flags
  | .RegisterIndirect size reg => .store (size.getD 0) (.reg 4 (.r reg)) value flags
  | .RegisterIndirectPostincrement size reg => .store (size.getD 0) (.reg 4 (.r reg)) value flags
  | .RegisterIndirectPredecrement size reg => .store (size.getD 0) (.reg 4 (.r reg)) value flags
  | _ => .unimplemented_instr

/-- The `movem` branch of `generate_instruction_il`
(`size_bytes = 1 << size`).  An attribute access that would fail in the
source (a register list on neither side) raises. -/
def generate_movem_il (cfg : Variant) (size_bytes : Nat) (addr : Nat)
    (source dest : Operand) : Py (List LI) :=
  match source with
  | .RegisterMovemList _ regs =>
      match dest with
      | .RegisterIndirectPredecrement _ destReg =>
          .ok
            ([LI.set_reg 4 (.temp 0) (get_address_il addr dest) ""] ++
             (if cfg.movem_store_decremented then
               [LI.set_reg 4 (.r destReg)
                 (.sub 4 (.reg 4 (.temp 0))
                   (.const 4 (Int.ofNat (regs.length * size_bytes)))) ""]
              else []) ++
             ((List.range regs.length).map (fun k =>
               LI.store size_bytes
                 (.sub 4 (.reg 4 (.temp 0)) (.const 4 (Int.ofNat ((k + 1) * size_bytes))))
                 (.reg size_bytes (.r (idx regs (regs.length - 1 - k)))) "")) ++
             (if ¬ cfg.movem_store_decremented then
               [LI.set_reg 4 (.r destReg)
                 (.sub 4 (.reg 4 (.temp 0))
                   (.const 4 (Int.ofNat (regs.length * size_bytes)))) ""]
              else []))
      | _ =>
          .ok
            ([LI.set_reg 4 (.temp 0) (get_address_il addr dest) ""] ++
             (List.range regs.length).map (fun k =>
               LI.store size_bytes
                 (.add 4 (.reg 4 (.temp 0)) (.const 4 (Int.ofNat (k * size_bytes))))
                 (.reg size_bytes (.r (idx regs k))) ""))
  | _ =>
      match dest with
      | .RegisterMovemList _ regs =>
          .ok
            ([LI.set_reg 4 (.temp 0) (get_address_il addr source) ""] ++
             ((List.range regs.length).map (fun k =>
               LI.set_reg size_bytes (.r (idx regs k))
                 (.load size_bytes
                   (.add 4 (.reg 4 (.temp 0)) (.const 4 (Int.ofNat (k * size_bytes))))) "")) ++
             (match source with
              | .RegisterIndirectPostincrement _ srcReg =>
                 [LI.set_reg 4 (.r srcReg)
                   (.add 4 (.reg 4 (.temp 0))
                     (.const 4 (Int.ofNat (regs.length * size_bytes)))) ""]
              | _ => []))
      | _ => .error ()

/-- The `db<cond>` branch of `generate_instruction_il`.
`lookup` models `il.get_label_for_address`; `addr` is
`il.current_address` and `length` the decoded byte length.  The
destination address expression of a decoded `db<cond>` is a
`const_pointer` (pc-relative displacement), so the
`il[dest_il].operation == LLIL_CONST` test of the source is false and the
branch label is always a fresh label followed by an explicit jump. -/
def generate_dbcc_il (instr : String) (length : Nat) (source dest : Operand)
    (addr : Nat) (lookup : Int → Bool) : List LI :=
  let flag_cond := (ConditionMapping.find? (fun p => p.fst = instr.drop 2)).map Prod.snd
  let dest_il := get_address_il addr dest
  let cond_il : Option Expr :=
    match flag_cond with
    | some fc => some (.flag_condition fc)
    | none =>
        if instr = "dbt" then some (.const 1 1)
        else if instr = "dbf" then some (.const 1 0)
        else none
  match cond_il with
  | none => [LI.unimplemented_instr]
  | some cond =>
      let branch : Option Lbl :=
        match dest_il with
        | Expr.const _ v => if lookup v then some (.at_addr v) else none
        | _ => none
      let (branch, indirect) :=
        match branch with
        | some b => (b, false)
        | none => (Lbl.fresh 0, true)
      let skipAddr : Int := (addr : Int) + (length : Int)
      let (skip, skip_label_found) :=
        if lookup skipAddr then (Lbl.at_addr skipAddr, true) else (Lbl.fresh 1, false)
      let decrement := Lbl.fresh 2
      [LI.if_expr cond skip decrement,
       LI.label decrement,
       LI.set_reg 2 (.temp 0)
         (.sub 2 (get_source_il addr source) (.const 2 1)) "",
       get_dest_il source (.reg 2 (.temp 0)) "",
       LI.if_expr (.compare_equal 2 (.reg 2 (.temp 0)) (.const 2 (-1))) skip branch] ++
      (if indirect then [LI.label branch, LI.jump dest_il] else []) ++
      (if ¬ skip_label_found then [LI.label skip] else [])

/-- The `divs` branch of `generate_instruction_il`.  In the word form the
source executes `dest.size = DATA_LONG`, assigning the enum value 2 (the
byte count of a word) to the operand size. -/
def generate_divs_il (size : Option Nat) (addr : Nat) (source dest : Operand) :
    Py (List LI) :=
  if size = some 1 then
    let dividend_il := get_source_il addr dest
    let divisor_il := get_source_il addr source
    let dest := dest.setSize (some DATA_LONG)
    .ok [get_dest_il dest
      (.or_expr 4
        (.shift_left 4 (.mod_signed 2 dividend_il divisor_il) (.const 1 16))
        (.div_signed 2 dividend_il divisor_il)) ""]
  else
    match dest with
    | .RegisterDirect _ _ =>
        let dividend_il := get_source_il addr dest
        let divisor_il := get_source_il addr source
        .ok [get_dest_il dest (.div_signed 4 dividend_il divisor_il) ""]
    | .RegisterDirectPair _ reg1 reg2 =>
        let dividend_il := Expr.or_expr 8
          (.shift_left 8 (.reg 4 (.r reg1)) (.const 1 32)) (.reg 4 (.r reg2))
        let divisor_il := get_source_il addr source
        .ok [LI.set_reg 4 (.temp 0) (.mod_signed 4 dividend_il divisor_il) "",
             LI.set_reg 4 (.r reg2) (.div_signed 4 dividend_il divisor_il) "",
             LI.set_reg 4 (.r reg1) (.reg 4 (.temp 0)) ""]
    | _ => .error ()

/-- The `divu` branch of `generate_instruction_il` (same shape as `divs`
with the unsigned operations). -/
def generate_divu_il (size : Option Nat) (addr : Nat) (source dest : Operand) :
    Py (List LI) :=
  if size = some 1 then
    let dividend_il := get_source_il addr dest
    let divisor_il := get_source_il addr source
    let dest := dest.setSize (some DATA_LONG)
    .ok [get_dest_il dest
      (.or_expr 4
        (.shift_left 4 (.mod_unsigned 2 dividend_il divisor_il) (.const 1 16))
        (.div_unsigned 2 dividend_il divisor_il)) ""]
  else
    match dest with
    | .RegisterDirect _ _ =>
        let dividend_il := get_source_il addr dest
        let divisor_il := get_source_il addr source
        .ok [get_dest_il dest (.div_unsigned 4 dividend_il divisor_il) ""]
    | .RegisterDirectPair _ reg1 reg2 =>
        let dividend_il := Expr.or_expr 8
          (.shift_left 8 (.reg 4 (.r reg1)) (.const 1 32)) (.reg 4 (.r reg2))
        let divisor_il := get_source_il addr source
        .ok [LI.set_reg 4 (.temp 0) (.mod_unsigned 4 dividend_il divisor_il) "",
             LI.set_reg 4 (.r reg2) (.div_unsigned 4 dividend_il divisor_il) "",
             LI.set_reg 4 (.r reg1) (.reg 4 (.temp 0)) ""]
    | _ => .error ()

/-! ## A small interpreter for the emitted IL -/

/-- Machine state: register file, flag-condition valuation, raw flag
bits and byte-addressed memory cells (one stored value per address). -/
structure MState : Type where
  regs : RName → Nat
  flags : FlagCond → Bool
  flagBits : String → Nat → Bool
  mem : Nat → Nat

/-- The static size (in bytes) of an expression. -/
def Expr.sz : Expr → Nat
  | .const s _ => s
  | .const_pointer s _ => s
  | .reg s _ => s
  | .add s _ _ => s
  | .sub s _ _ => s
  | .mult s _ _ => s
  | .div_unsigned s _ _ => s
  | .div_signed s _ _ => s
  | .mod_unsigned s _ _ => s
  | .mod_signed s _ _ => s
  | .and_expr s _ _ => s
  | .or_expr s _ _ => s
  | .xor_expr s _ _ => s
  | .shift_left s _ _ => s
  | .sign_extend s _ => s
  | .zero_extend s _ => s
  | .load s _ => s
  | .compare_equal _ _ _ => 1
  | .flag_condition _ => 1
  | .flag_bit s _ _ => s
  | .unimpl => 1

/-- Sign extension of a `s`-byte value to `t` bytes (as unsigned bit
patterns). -/
def sext (s t v : Nat) : Nat :=
  if v < 2 ^ (8 * s - 1) then v else v + (2 ^ (8 * t) - 2 ^ (8 * s))

/-- Evaluate an expression in a machine state.  Every operator truncates
to its byte size; signed division and modulus truncate toward zero. -/
def evalExpr (st : MState) : Expr → Nat
  | .const s v => (v.emod (2 ^ (8 * s))).toNat
  | .const_pointer s v => (v.emod (2 ^ (8 * s))).toNat
  | .reg s n => st.regs n % 2 ^ (8 * s)
  | .add s a b => (evalExpr st a + evalExpr st b) % 2 ^ (8 * s)
  | .sub s a b =>
      ((evalExpr st a % 2 ^ (8 * s)) + 2 ^ (8 * s) - evalExpr st b % 2 ^ (8 * s)) % 2 ^ (8 * s)
  | .mult s a b => (evalExpr st a * evalExpr st b) % 2 ^ (8 * s)
  | .div_unsigned s a b =>
      ((evalExpr st a % 2 ^ (8 * s)) / (evalExpr st b % 2 ^ (8 * s))) % 2 ^ (8 * s)
  | .div_signed s a b =>
      ((Int.tdiv (toSigned (8 * s) (evalExpr st a % 2 ^ (8 * s)))
          (toSigned (8 * s) (evalExpr st b % 2 ^ (8 * s)))).emod (2 ^ (8 * s))).toNat
  | .mod_unsigned s a b =>
      ((evalExpr st a % 2 ^ (8 * s)) % (evalExpr st b % 2 ^ (8 * s))) % 2 ^ (8 * s)
  | .mod_signed s a b =>
      ((Int.tmod (toSigned (8 * s) (evalExpr st a % 2 ^ (8 * s)))
          (toSigned (8 * s) (evalExpr st b % 2 ^ (8 * s)))).emod (2 ^ (8 * s))).toNat
  | .and_expr s a b => (evalExpr st a &&& evalExpr st b) % 2 ^ (8 * s)
  | .or_expr s a b => (evalExpr st a ||| evalExpr st b) % 2 ^ (8 * s)
  | .xor_expr s a b => (evalExpr st a ^^^ evalExpr st b) % 2 ^ (8 * s)
  | .shift_left s a b => ((evalExpr st a) <<< (evalExpr st b)) % 2 ^ (8 * s)
  | .sign_extend t a => sext (Expr.sz a) t (evalExpr st a % 2 ^ (8 * Expr.sz a)) % 2 ^ (8 * t)
  | .zero_extend t a => evalExpr st a % 2 ^ (8 * t)
  | .load s a => st.mem (evalExpr st a) % 2 ^ (8 * s)
  | .compare_equal s a b =>
      if evalExpr st a % 2 ^ (8 * s) = evalExpr st b % 2 ^ (8 * s) then 1 else 0
  | .flag_condition c => if st.flags c then 1 else 0
  | .flag_bit _ f b => if st.flagBits f b then 1 else 0
  | .unimpl => 0

/-- Where control ended after running an IL fragment. -/
inductive Outcome : Type where
  | fell (st : MState)
  | ext (l : Lbl) (st : MState)
  | jumped (target : Nat) (st : MState)
  | stuck

/-- Run a fragment from instruction index `pc` with the given fuel.
Branching to a label marked inside the fragment continues there;
branching to an unmarked (host-owned) label leaves the fragment. -/
def runIL (prog : List LI) : Nat → MState → Nat → Outcome
  | _, _, 0 => .stuck
  | pc, st, fuel + 1 =>
      match prog[pc]? with
      | none => .fell st
      | some item =>
          match item with
          | .label _ => runIL prog (pc + 1) st fuel
          | .unimplemented_instr => runIL prog (pc + 1) st fuel
          | .set_reg s d v _ =>
              runIL prog (pc + 1)
                { st with regs := fun n =>
                    if n = d then evalExpr st v % 2 ^ (8 * s) else st.regs n } fuel
          | .store s a v _ =>
              runIL prog (pc + 1)
                { st with mem := fun x =>
                    if x = evalExpr st a then evalExpr st v % 2 ^ (8 * s) else st.mem x } fuel
          | .if_expr c t f =>
              let l := if evalExpr st c ≠ 0 then t else f
              match prog.findIdx? (fun i => i = LI.label l) with
              | some j => runIL prog j st fuel
              | none => .ext l st
          | .goto l =>
              match prog.findIdx? (fun i => i = LI.label l) with
              | some j => runIL prog j st fuel
              | none => .ext l st
          | .jump e => .jumped (evalExpr st e) st

/-- Read a register out of an outcome (0 when stuck). -/
def Outcome.readReg (o : Outcome) (n : RName) : Nat :=
  match o with
  | .fell st => st.regs n
  | .ext _ st => st.regs n
  | .jumped _ st => st.regs n
  | .stuck => 0

/-- The jump target of an outcome, when it is a computed jump. -/
def Outcome.target? : Outcome → Option Nat
  | .jumped t _ => some t
  | _ => none

/-- Control left the fragment to the instruction that follows it: either
by falling off the end or by branching to the host label of the
fall-through address. -/
def FallsThrough (addr len : Nat) (o : Outcome) : Prop :=
  (∃ st, o = .fell st) ∨ (∃ st, o = .ext (.at_addr ((addr : Int) + (len : Int))) st)

/-! ## Helper lemmas -/

@[simp] lemma py_bind_ok {α β : Type} (a : α) (f : α → Py β) :
    (Except.ok a >>= f) = f a := rfl

@[simp] lemma py_bind_err {α β : Type} (f : α → Py β) :
    ((Except.error () : Py α) >>= f) = .error () := rfl

@[simp] lemma py_pure {α : Type} (a : α) : (pure a : Py α) = Except.ok a := rfl

lemma idx_string_length_le {l : List String} {b : Nat}
    (hl : ∀ s ∈ l, s.length ≤ b) (i : Nat) : (idx l i).length ≤ b := by
  unfold idx
  rcases Nat.lt_or_ge i l.length with hi | hi
  · rw [List.getD_eq_getElem l default hi]
    exact hl _ (List.getElem_mem hi)
  · rw [List.getD_eq_getElem?_getD, List.getElem?_eq_none (by omega), Option.getD_none]
    simp

lemma ne_unimpl_of_len_ne {s : String} (h : s.length ≠ 13) : s ≠ "unimplemented" :=
  fun he => h (by rw [he]; rfl)

lemma append_idx_ne_unimpl {p : String} {l : List String} {b : Nat}
    (hl : ∀ s ∈ l, s.length ≤ b) (hb : p.length + b ≤ 12) (i : Nat) :
    p ++ idx l i ≠ "unimplemented" := by
  apply ne_unimpl_of_len_ne
  rw [String.length_append]
  have := idx_string_length_le hl i
  omega

lemma idx_append_ne_unimpl {suf : String} {l : List String} {b : Nat}
    (hl : ∀ s ∈ l, s.length ≤ b) (hb : b + suf.length ≤ 12) (i : Nat) :
    idx l i ++ suf ≠ "unimplemented" := by
  apply ne_unimpl_of_len_ne
  rw [String.length_append]
  have := idx_string_length_le hl i
  omega

lemma readU8_eq {data : List Nat} {off : Nat} (h : off < data.length) :
    readU8 data off = .ok data[off] := by
  unfold readU8
  rw [List.get?_eq_getElem?, List.getElem?_eq_getElem h]

lemma readU8_ok_of_lt {data : List Nat} {off : Nat} (h : off < data.length) :
    ∃ b, readU8 data off = .ok b :=
  ⟨data[off], readU8_eq h⟩

lemma readU16_ok_of_lt {data : List Nat} {off : Nat} (h : off + 1 < data.length) :
    ∃ b, readU16 data off = .ok b := by
  obtain ⟨b0, h0⟩ := readU8_ok_of_lt (by omega : off < data.length)
  obtain ⟨b1, h1⟩ := readU8_ok_of_lt (h)
  exact ⟨256 * b0 + b1, by simp [readU16, h0, h1]⟩

lemma readU32_ok_of_lt {data : List Nat} {off : Nat} (h : off + 3 < data.length) :
    ∃ b, readU32 data off = .ok b := by
  obtain ⟨b0, h0⟩ := readU16_ok_of_lt (by omega : off + 1 < data.length)
  obtain ⟨b1, h1⟩ := readU16_ok_of_lt (by omega : (off + 2) + 1 < data.length)
  exact ⟨65536 * b0 + b1, by simp [readU32, h0, h1]⟩

lemma readS16_ok_of_lt {data : List Nat} {off : Nat} (h : off + 1 < data.length) :
    ∃ b, readS16 data off = .ok b := by
  obtain ⟨b, hb⟩ := readU16_ok_of_lt h
  exact ⟨toSigned 16 b, by simp [readS16, hb]⟩

lemma and_mask_hi (x k w : Nat) (hk : k ≤ w) (hx : x < 2 ^ w) :
    x &&& (2 ^ w - 2 ^ k) = 2 ^ k * (x / 2 ^ k) := by
  have hm : 2 ^ w - 2 ^ k = (2 ^ (w - k) - 1) <<< k := by
    rw [Nat.shiftLeft_eq, Nat.sub_mul, one_mul, ← Nat.pow_add]
    congr 2
    omega
  have hr : 2 ^ k * (x / 2 ^ k) = (x >>> k) <<< k := by
    rw [Nat.shiftLeft_eq, Nat.shiftRight_eq_div_pow]
    ring
  rw [hm, hr]
  apply Nat.eq_of_testBit_eq
  intro i
  simp only [Nat.testBit_and, Nat.testBit_shiftLeft, Nat.testBit_shiftRight,
    Nat.testBit_two_pow_sub_one]
  rcases Nat.lt_or_ge i k with hik | hik
  · simp [Nat.not_le_of_lt hik]
  · rcases Nat.lt_or_ge i w with hiw | hiw
    · have h1 : k + (i - k) = i := by omega
      have h2 : i - k < w - k := by omega
      simp [hik, h1, h2]
    · have hbit : x.testBit i = false := Nat.testBit_lt_two_pow
        (lt_of_lt_of_le hx (Nat.pow_le_pow_right (by norm_num) hiw))
      have hbit2 : x.testBit (k + (i - k)) = false := by
        rw [show k + (i - k) = i by omega]; exact hbit
      simp [hbit, hbit2]

/-- The register write emitted by a masked (byte or word) register-direct
destination merges the new low `k` bits of `v` over the preserved upper
bits of `x`. -/
lemma masked_merge (x v k : Nat) (hk0 : 0 < k) (hk : k ≤ 32) (hx : x < 2 ^ 32) :
    ((x &&& (2 ^ 32 - 2 ^ k)) ||| ((2 ^ k - 1) &&& v)) % 2 ^ 32 =
      2 ^ k * (x / 2 ^ k) + v % 2 ^ k := by
  have h2 : (2 ^ k - 1) &&& v = v % 2 ^ k := by
    rw [Nat.land_comm, Nat.and_pow_two_sub_one_eq_mod]
  rw [and_mask_hi x k 32 hk hx, h2,
    ← Nat.mul_add_lt_is_or (by
      have := Nat.mod_lt v (Nat.pos_pow_of_pos k (by norm_num : 0 < 2))
      omega) (x / 2 ^ k)]
  apply Nat.mod_eq_of_lt
  have hpow : 2 ^ k * 2 ^ (32 - k) = 2 ^ 32 := by
    rw [← Nat.pow_add]
    congr 1
    omega
  have hq : x / 2 ^ k < 2 ^ (32 - k) := Nat.div_lt_of_lt_mul (by rw [hpow]; exact hx)
  have hvk : v % 2 ^ k < 2 ^ k := Nat.mod_lt v (Nat.pos_pow_of_pos k (by norm_num : 0 < 2))
  calc 2 ^ k * (x / 2 ^ k) + v % 2 ^ k < 2 ^ k * (x / 2 ^ k) + 2 ^ k := by omega
    _ = 2 ^ k * (x / 2 ^ k + 1) := by ring
    _ ≤ 2 ^ k * 2 ^ (32 - k) := Nat.mul_le_mul_left _ (by omega)
    _ = 2 ^ 32 := hpow

/-! ## Claim C10 -/

/-- Claim C10: for every input on which `decode_instruction` yields the
`unimplemented` sentinel, `perform_get_instruction_info` produces no
instruction info at all (returns `None`) rather than an info record with
zero branches. -/
theorem C10_unimplemented_gives_no_info (cfg : Variant) (data : List Nat) (addr : Nat)
    (d : Decoded) (hd : decode_instruction cfg data addr = .ok d)
    (hu : d.instr = "unimplemented") :
    perform_get_instruction_info cfg data addr = .ok none := by
  unfold perform_get_instruction_info
  rw [hd]
  simp [hu]

/-- Witness for C10 at the reserved line-1010 opcode `0xa000`. -/
theorem C10_unimplemented_gives_no_info_witness :
    perform_get_instruction_info M68000 [0xa0, 0x00] 0 = .ok none :=
  C10_unimplemented_gives_no_info M68000 [0xa0, 0x00] 0
    (error_value [0xa0, 0x00]) (by rfl) (by rfl)

/-! ## Claim C1 -/

/-- Claim C1 counterexample: on a variant with
`movem_store_decremented = true` (the M68020), for
`movem.l d0, -(a0)` the emitted sequence writes the decremented address
back to `a0` (list position 1) BEFORE the store to memory (list
position 2) — the claim asserts the store precedes the register write. -/
theorem C1_movem_counterexample :
    M68020.movem_store_decremented = true ∧
    generate_movem_il M68020 4 0
      (.RegisterMovemList (some 4) ["d0"])
      (.RegisterIndirectPredecrement (some 4) "a0") =
      .ok
        [LI.set_reg 4 (.temp 0) (.reg 4 (.r "a0")) "",
         LI.set_reg 4 (.r "a0") (.sub 4 (.reg 4 (.temp 0)) (.const 4 4)) "",
         LI.store 4 (.sub 4 (.reg 4 (.temp 0)) (.const 4 4)) (.reg 4 (.r "d0")) ""] := by
  constructor
  · rfl
  · rfl

/-- Claim C1 as amended: for a register-list source and a predecrement
destination, when `movem_store_decremented` is true the write of the
decremented address back to the address register PRECEDES all stores;
when it is false the address register is updated only after the last
store. -/
theorem C1_movem_predec_order (cfg : Variant) (size_bytes addr : Nat)
    (szs szd : Option Nat) (regs : List String) (an : String) :
    generate_movem_il cfg size_bytes addr
      (.RegisterMovemList szs regs) (.RegisterIndirectPredecrement szd an) =
      .ok
        (LI.set_reg 4 (.temp 0) (.reg 4 (.r an)) "" ::
         (if cfg.movem_store_decremented then
            [LI.set_reg 4 (.r an)
              (.sub 4 (.reg 4 (.temp 0)) (.const 4 (Int.ofNat (regs.length * size_bytes)))) ""]
          else []) ++
         ((List.range regs.length).map (fun k =>
            LI.store size_bytes
              (.sub 4 (.reg 4 (.temp 0)) (.const 4 (Int.ofNat ((k + 1) * size_bytes))))
              (.reg size_bytes (.r (idx regs (regs.length - 1 - k)))) "")) ++
         (if cfg.movem_store_decremented then []
          else
            [LI.set_reg 4 (.r an)
              (.sub 4 (.reg 4 (.temp 0)) (.const 4 (Int.ofNat (regs.length * size_bytes)))) ""])) := by
  unfold generate_movem_il
  rcases h : cfg.movem_store_decremented <;> simp [get_address_il, h]

/-- `decode_instruction` on a buffer of at least two bytes: the length
guard passes and the opcode word is `256 * b0 + b1`. -/
lemma decode_instruction_cons (cfg : Variant) (b0 b1 : Nat) (rest : List Nat) (addr : Nat) :
    decode_instruction cfg (b0 :: b1 :: rest) addr =
      (decode_dispatch cfg (((256 * b0 + b1) >>> 8) >>> 4) (256 * b0 + b1)
          (b0 :: b1 :: rest) >>= fun r =>
        match r with
        | none => pure (error_value (b0 :: b1 :: rest))
        | some d => pure d) := by
  unfold decode_instruction
  rw [if_neg (by simp)]
  simp [readU16, readU8]

/-! ## Claim C2 -/

/-- Claim C2 counterexample: the 4-byte input `a0 00 00 00` starts with
the reserved line-1010 nibble, no pattern matches and no extension bytes
were counted, so the claim predicts a sentinel length of 2; the code
reports the full input length 4. -/
theorem C2_unimplemented_length_counterexample :
    decode_instruction M68000 [0xa0, 0x00, 0x00, 0x00] 0 =
      .ok ⟨"unimplemented", some 4, none, none, none, none⟩ ∧
    (some 4 : Option Nat) ≠ some 2 :=
  ⟨rfl, by decide⟩

/-! ## Claim C3 -/

/-- Claim C3 counterexample: `move.b d0, a0` (bytes `10 40`) is a
byte-size write to an address register, yet the decoder does not reject
it: it returns `movea` (not the sentinel) with the destination operand
present. -/
theorem C3_byte_movea_counterexample :
    decode_instruction M68000 [0x10, 0x40] 0 =
      .ok ⟨"movea", some 2, some 0, some (.RegisterDirect (some 1) "d0"),
        some (.RegisterDirect (some 1) "a0"), none⟩ ∧
    ("movea" : String) ≠ "unimplemented" ∧
    some (Operand.RegisterDirect (some 1) "a0") ≠ (none : Option Operand) :=
  ⟨rfl, by decide, by decide⟩

/-- Claim C3 as amended: the decoder ACCEPTS every byte-size move whose
destination is address-register direct — `move.b dN, aM`
(opcode `0x1000 ||| M << 9 ||| 1 << 6 ||| N`) decodes as `movea` with the
destination operand present — and the rejection happens in the lifter:
the register-direct destination write emits an unimplemented IL node for
a byte-size address-register destination. -/
theorem C3_byte_movea_accepted_lifter_rejects (cfg : Variant) (m n : Nat)
    (rest : List Nat) (addr : Nat) (hm : m < 8) (hn : n < 8)
    (value : Expr) (flags : String) :
    decode_instruction cfg ((16 + 2 * m) :: (64 + n) :: rest) addr =
      .ok ⟨"movea", some 2, some 0,
        some (.RegisterDirect (some 1) (idx Registers n)),
        some (.RegisterDirect (some 1) (idx Registers (m + 8))), none⟩ ∧
    OpRegisterDirect_get_dest_il (some 1) (idx Registers (m + 8)) value flags =
      .unimplemented_instr := by
  constructor
  · rw [decode_instruction_cons]
    interval_cases m <;> interval_cases n <;> rfl
  · interval_cases m <;> rfl

/-- Witness for the amended C3 at `move.b d0, a0`. -/
theorem C3_byte_movea_accepted_lifter_rejects_witness :
    decode_instruction M68000 [16 + 2 * 0, 64 + 0] 0 =
      .ok ⟨"movea", some 2, some 0,
        some (.RegisterDirect (some 1) (idx Registers 0)),
        some (.RegisterDirect (some 1) (idx Registers 8)), none⟩ ∧
    OpRegisterDirect_get_dest_il (some 1) (idx Registers (0 + 8))
      (Expr.const 1 0) "" = .unimplemented_instr :=
  C3_byte_movea_accepted_lifter_rejects M68000 0 0 [] 0 (by decide) (by decide)
    (Expr.const 1 0) ""

/-! ## Claim C4 -/

/-- Claim C4 counterexample: on the M68000 (`memory_indirect = false`) a
full extension word (bit 8 set) does NOT signal decode failure: mode 6,
register 0 with extension word `0x0101` produces a memory-indirect
pre-indexed operand. -/
theorem C4_full_extension_counterexample :
    M68000.memory_indirect = false ∧
    decode_effective_address M68000 6 0 [0x01, 0x01] (some 1) =
      .ok (some (.MemoryIndirectPreindex (some 1) (some "a0") 0 (some "d0") 0 1 0), some 2) :=
  ⟨rfl, rfl⟩

/-- A full extension word always decodes to an operand when its
displacement bytes are present. -/
lemma decode_extension_word_full_ok (reg0 : Option String) (data : List Nat)
    (size : Option Nat) (extra : Nat) (hlen : 10 ≤ data.length)
    (hextra : readU16 data 0 = .ok extra) (hfull : extra &&& 0x0100 ≠ 0) :
    ∃ op len, decode_extension_word reg0 data size = .ok (some op, some len) := by
  obtain ⟨v2, hv2⟩ := readS16_ok_of_lt (show 2 + 1 < data.length by omega)
  obtain ⟨u2, hu2⟩ := readU32_ok_of_lt (show 2 + 3 < data.length by omega)
  obtain ⟨v4, hv4⟩ := readS16_ok_of_lt (show 4 + 1 < data.length by omega)
  obtain ⟨u4, hu4⟩ := readU32_ok_of_lt (show 4 + 3 < data.length by omega)
  obtain ⟨v6, hv6⟩ := readS16_ok_of_lt (show 6 + 1 < data.length by omega)
  obtain ⟨u6, hu6⟩ := readU32_ok_of_lt (show 6 + 3 < data.length by omega)
  unfold decode_extension_word
  rw [hextra]
  simp only [py_bind_ok]
  rw [if_pos hfull]
  by_cases hb2 : (extra >>> 4) &&& 3 = 2 <;> by_cases hb3 : (extra >>> 4) &&& 3 = 3 <;>
    by_cases ho2 : extra &&& 3 = 2 <;> by_cases ho3 : extra &&& 3 = 3 <;>
      by_cases h70 : extra &&& 7 = 0 <;> by_cases h72 : (extra >>> 2) % 2 = 1 <;>
        first
          | omega
          | simp [hb2, hb3, ho2, ho3, h70, h72, hv2, hu2, hv4, hu4, hv6, hu6]

/-- Claim C4 as amended: the effective-address decoder never consults
`memory_indirect`; on EVERY variant (including those where the flag is
false) an extension-word mode with bit 8 of the extension word set
decodes successfully to an operand, provided the extension bytes are
present.  Decode failure arises only from unrecognized (mode, register)
pairs. -/
theorem C4_full_extension_word_decodes (cfg : Variant) (mode register : Nat)
    (data : List Nat) (size : Option Nat) (extra : Nat)
    (hmode : mode &&& 7 = 6 ∨ (mode &&& 7 = 7 ∧ register &&& 7 = 3))
    (hlen : 10 ≤ data.length)
    (hextra : readU16 data 0 = .ok extra)
    (hfull : extra &&& 0x0100 ≠ 0) :
    ∃ op len, decode_effective_address cfg mode register data size =
      .ok (some op, some len) := by
  unfold decode_effective_address
  rcases hmode with h6 | ⟨h7, h73⟩
  · simp only [h6]
    norm_num
    exact decode_extension_word_full_ok _ _ _ _ hlen hextra hfull
  · simp only [h7, h73]
    norm_num
    exact decode_extension_word_full_ok _ _ _ _ hlen hextra hfull

/-- Witness for the amended C4: a full extension word on the M68000. -/
theorem C4_full_extension_word_decodes_witness :
    ∃ op len, decode_effective_address M68000 6 0
      [0x01, 0x01, 0, 0, 0, 0, 0, 0, 0, 0] (some 1) = .ok (some op, some len) :=
  C4_full_extension_word_decodes M68000 6 0 [0x01, 0x01, 0, 0, 0, 0, 0, 0, 0, 0]
    (some 1) 0x0101 (Or.inl (by decide)) (by decide) (by rfl) (by decide)

end M68k

namespace M68k

lemma cond_append_ne (p : String) (hp : p.length ≤ 10) (i : Nat) :
    p ++ idx Condition i ≠ "unimplemented" :=
  append_idx_ne_unimpl (b := 2) (by decide) (by omega) i

lemma fpcond_append_ne (p : String) (hp : p.length ≤ 8) (i : Nat) :
    p ++ idx FP_Condition i ≠ "unimplemented" :=
  append_idx_ne_unimpl (b := 4) (by decide) (by omega) i

lemma fbcc_idx_ne (i : Nat) : idx FBcc_Instructions i ≠ "unimplemented" := by
  have := idx_string_length_le (l := FBcc_Instructions) (b := 6) (by decide) i
  exact ne_unimpl_of_len_ne (by omega)

lemma bf_append_ne (i : Nat) : "bf" ++ idx BitfieldStyle i ≠ "unimplemented" :=
  append_idx_ne_unimpl (b := 4) (by decide) (by decide) i

lemma shift_append_ne (i : Nat) (suf : String) (hs : suf.length ≤ 9) :
    idx ShiftStyle i ++ suf ≠ "unimplemented" :=
  idx_append_ne_unimpl (b := 3) (by decide) (by omega) i

lemma ite_some_inv {c₁ c₂ : Prop} [Decidable c₁] [Decidable c₂] {x y z s : String}
    (h : (if c₁ then if c₂ then some x else some y else some z) = some s) :
    s = x ∨ s = y ∨ s = z := by
  split at h <;> [skip; exact Or.inr (Or.inr (Option.some.inj h).symm)]
  split at h
  · exact Or.inl (Option.some.inj h).symm
  · exact Or.inr (Or.inl (Option.some.inj h).symm)


lemma decode_op7_good (instruction : Nat) (d : Decoded)
    (h : decode_op7 instruction = .ok (some d)) : d.instr ≠ "unimplemented" := by
  unfold decode_op7 at h
  simp only [bind, Except.bind, pure, Except.pure] at h
  repeat' split at h
  all_goals first
    | (injection h with h; injection h with h; subst h; dsimp only;
        first
          | decide
          | exact cond_append_ne _ (by decide) _
          | exact fpcond_append_ne _ (by decide) _
          | exact fbcc_idx_ne _
          | exact bf_append_ne _
          | exact shift_append_ne _ _ (by split <;> decide)
          | ((repeat' split) <;> first
              | decide
              | exact cond_append_ne _ (by decide) _
              | exact shift_append_ne _ _ (by decide)))
    | (injection h with h; exact Option.noConfusion h)
    | exact Except.noConfusion h

lemma decode_op6_good (instruction : Nat) (data : List Nat) (d : Decoded)
    (h : decode_op6 instruction data = .ok (some d)) : d.instr ≠ "unimplemented" := by
  unfold decode_op6 at h
  simp only [bind, Except.bind, pure, Except.pure] at h
  repeat' split at h
  all_goals first
    | (injection h with h; injection h with h; subst h; dsimp only;
        first
          | decide
          | exact cond_append_ne _ (by decide) _
          | exact fpcond_append_ne _ (by decide) _
          | exact fbcc_idx_ne _
          | exact bf_append_ne _
          | exact shift_append_ne _ _ (by split <;> decide)
          | ((repeat' split) <;> first
              | decide
              | exact cond_append_ne _ (by decide) _
              | exact shift_append_ne _ _ (by decide)))
    | (injection h with h; exact Option.noConfusion h)
    | exact Except.noConfusion h

lemma decode_op5_good (cfg : Variant) (instruction : Nat) (data : List Nat) (d : Decoded)
    (h : decode_op5 cfg instruction data = .ok (some d)) : d.instr ≠ "unimplemented" := by
  unfold decode_op5 at h
  simp only [bind, Except.bind, pure, Except.pure] at h
  repeat' split at h
  all_goals first
    | (injection h with h; injection h with h; subst h; dsimp only;
        first
          | decide
          | exact cond_append_ne _ (by decide) _
          | exact fpcond_append_ne _ (by decide) _
          | exact fbcc_idx_ne _
          | exact bf_append_ne _
          | exact shift_append_ne _ _ (by split <;> decide)
          | ((repeat' split) <;> first
              | decide
              | exact cond_append_ne _ (by decide) _
              | exact shift_append_ne _ _ (by decide)))
    | (injection h with h; exact Option.noConfusion h)
    | exact Except.noConfusion h

lemma decode_op8_good (cfg : Variant) (instruction : Nat) (data : List Nat) (d : Decoded)
    (h : decode_op8 cfg instruction data = .ok (some d)) : d.instr ≠ "unimplemented" := by
  unfold decode_op8 at h
  simp only [bind, Except.bind, pure, Except.pure] at h
  repeat' split at h
  all_goals first
    | (injection h with h; injection h with h; subst h; dsimp only;
        first
          | decide
          | exact cond_append_ne _ (by decide) _
          | exact fpcond_append_ne _ (by decide) _
          | exact fbcc_idx_ne _
          | exact bf_append_ne _
          | exact shift_append_ne _ _ (by split <;> decide)
          | ((repeat' split) <;> first
              | decide
              | exact cond_append_ne _ (by decide) _
              | exact shift_append_ne _ _ (by decide)))
    | (injection h with h; exact Option.noConfusion h)
    | exact Except.noConfusion h

lemma decode_op9_good (cfg : Variant) (instruction : Nat) (data : List Nat) (d : Decoded)
    (h : decode_op9 cfg instruction data = .ok (some d)) : d.instr ≠ "unimplemented" := by
  unfold decode_op9 at h
  simp only [bind, Except.bind, pure, Except.pure] at h
  repeat' split at h
  all_goals first
    | (injection h with h; injection h with h; subst h; dsimp only;
        first
          | decide
          | exact cond_append_ne _ (by decide) _
          | exact fpcond_append_ne _ (by decide) _
          | exact fbcc_idx_ne _
          | exact bf_append_ne _
          | exact shift_append_ne _ _ (by split <;> decide)
          | ((repeat' split) <;> first
              | decide
              | exact cond_append_ne _ (by decide) _
              | exact shift_append_ne _ _ (by decide)))
    | (injection h with h; exact Option.noConfusion h)
    | exact Except.noConfusion h

lemma decode_opB_good (cfg : Variant) (instruction : Nat) (data : List Nat) (d : Decoded)
    (h : decode_opB cfg instruction data = .ok (some d)) : d.instr ≠ "unimplemented" := by
  unfold decode_opB at h
  simp only [bind, Except.bind, pure, Except.pure] at h
  repeat' split at h
  all_goals first
    | (injection h with h; injection h with h; subst h; dsimp only;
        first
          | decide
          | exact cond_append_ne _ (by decide) _
          | exact fpcond_append_ne _ (by decide) _
          | exact fbcc_idx_ne _
          | exact bf_append_ne _
          | exact shift_append_ne _ _ (by split <;> decide)
          | ((repeat' split) <;> first
              | decide
              | exact cond_append_ne _ (by decide) _
              | exact shift_append_ne _ _ (by decide)))
    | (injection h with h; exact Option.noConfusion h)
    | exact Except.noConfusion h

lemma decode_opC_good (cfg : Variant) (instruction : Nat) (data : List Nat) (d : Decoded)
    (h : decode_opC cfg instruction data = .ok (some d)) : d.instr ≠ "unimplemented" := by
  unfold decode_opC at h
  simp only [bind, Except.bind, pure, Except.pure] at h
  repeat' split at h
  all_goals first
    | (injection h with h; injection h with h; subst h; dsimp only;
        first
          | decide
          | exact cond_append_ne _ (by decide) _
          | exact fpcond_append_ne _ (by decide) _
          | exact fbcc_idx_ne _
          | exact bf_append_ne _
          | exact shift_append_ne _ _ (by split <;> decide)
          | ((repeat' split) <;> first
              | decide
              | exact cond_append_ne _ (by decide) _
              | exact shift_append_ne _ _ (by decide)))
    | (injection h with h; exact Option.noConfusion h)
    | exact Except.noConfusion h

lemma decode_opD_good (cfg : Variant) (instruction : Nat) (data : List Nat) (d : Decoded)
    (h : decode_opD cfg instruction data = .ok (some d)) : d.instr ≠ "unimplemented" := by
  unfold decode_opD at h
  simp only [bind, Except.bind, pure, Except.pure] at h
  repeat' split at h
  all_goals first
    | (injection h with h; injection h with h; subst h; dsimp only;
        first
          | decide
          | exact cond_append_ne _ (by decide) _
          | exact fpcond_append_ne _ (by decide) _
          | exact fbcc_idx_ne _
          | exact bf_append_ne _
          | exact shift_append_ne _ _ (by split <;> decide)
          | ((repeat' split) <;> first
              | decide
              | exact cond_append_ne _ (by decide) _
              | exact shift_append_ne _ _ (by decide)))
    | (injection h with h; exact Option.noConfusion h)
    | exact Except.noConfusion h

lemma decode_opE_good (cfg : Variant) (instruction : Nat) (data : List Nat) (d : Decoded)
    (h : decode_opE cfg instruction data = .ok (some d)) : d.instr ≠ "unimplemented" := by
  unfold decode_opE at h
  simp only [bind, Except.bind, pure, Except.pure] at h
  repeat' split at h
  all_goals first
    | (injection h with h; injection h with h; subst h; dsimp only;
        first
          | decide
          | exact cond_append_ne _ (by decide) _
          | exact fpcond_append_ne _ (by decide) _
          | exact fbcc_idx_ne _
          | exact bf_append_ne _
          | exact shift_append_ne _ _ (by split <;> decide)
          | ((repeat' split) <;> first
              | decide
              | exact cond_append_ne _ (by decide) _
              | exact shift_append_ne _ _ (by decide)))
    | (injection h with h; exact Option.noConfusion h)
    | exact Except.noConfusion h

lemma decode_move_good (cfg : Variant) (operation_code instruction : Nat) (data : List Nat) (d : Decoded)
    (h : decode_move cfg operation_code instruction data = .ok (some d)) : d.instr ≠ "unimplemented" := by
  unfold decode_move at h
  simp only [bind, Except.bind, pure, Except.pure] at h
  repeat' split at h
  all_goals first
    | (injection h with h; injection h with h; subst h; dsimp only;
        first
          | decide
          | exact cond_append_ne _ (by decide) _
          | exact fpcond_append_ne _ (by decide) _
          | exact fbcc_idx_ne _
          | exact bf_append_ne _
          | exact shift_append_ne _ _ (by split <;> decide)
          | ((repeat' split) <;> first
              | decide
              | exact cond_append_ne _ (by decide) _
              | exact shift_append_ne _ _ (by decide)))
    | (injection h with h; exact Option.noConfusion h)
    | exact Except.noConfusion h

set_option maxHeartbeats 1000000 in
lemma decode_op0_good (cfg : Variant) (instruction : Nat) (data : List Nat) (d : Decoded)
    (h : decode_op0 cfg instruction data = .ok (some d)) : d.instr ≠ "unimplemented" := by
  unfold decode_op0 at h
  by_cases h1 : instruction &&& 0xf9c0 = 0x00c0
  case pos =>
    rw [if_pos h1] at h
    simp only [bind, Except.bind, pure, Except.pure] at h
    repeat' split at h
    all_goals first
      | (injection h with h; injection h with h; subst h; dsimp only;
          first
            | decide
            | ((repeat' split) <;> decide))
      | (injection h with h; exact Option.noConfusion h)
      | exact Except.noConfusion h
  rw [if_neg h1] at h
  by_cases h2 : instruction &&& 0xffc0 = 0x0ac0 ∨ instruction &&& 0xffc0 = 0x0cc0 ∨
      instruction &&& 0xffc0 = 0x0ec0
  case pos =>
    rw [if_pos h2] at h
    simp only [bind, Except.bind, pure, Except.pure] at h
    repeat' split at h
    all_goals first
      | (injection h with h; injection h with h; subst h; dsimp only;
          first
            | decide
            | ((repeat' split) <;> decide))
      | (injection h with h; exact Option.noConfusion h)
      | exact Except.noConfusion h
  rw [if_neg h2] at h
  by_cases h3 : instruction >>> 8 = 0x00 ∨ instruction >>> 8 = 0x02 ∨ instruction >>> 8 = 0x04 ∨
      instruction >>> 8 = 0x06 ∨ instruction >>> 8 = 0x0a ∨ instruction >>> 8 = 0x0c
  case pos =>
    rw [if_pos h3] at h
    simp only [bind, Except.bind, pure, Except.pure] at h
    repeat' split at h
    all_goals first
      | (injection h with h; injection h with h; subst h; dsimp only;
          first
            | decide
            | ((repeat' split) <;> decide))
      | (injection h with h; exact Option.noConfusion h)
      | exact Except.noConfusion h
  rw [if_neg h3] at h
  by_cases h4 : instruction >>> 8 = 0x08
  case pos =>
    rw [if_pos h4] at h
    simp only [bind, Except.bind, pure, Except.pure] at h
    repeat' split at h
    all_goals first
      | (injection h with h; injection h with h; subst h; dsimp only;
          first
            | decide
            | ((repeat' split) <;> decide))
      | (injection h with h; exact Option.noConfusion h)
      | exact Except.noConfusion h
  rw [if_neg h4] at h
  by_cases h5 : (instruction >>> 8) &&& 0xf1 = 0x01
  case pos =>
    rw [if_pos h5] at h
    simp only [bind, Except.bind, pure, Except.pure] at h
    repeat' split at h
    all_goals first
      | (injection h with h; injection h with h; subst h; dsimp only;
          first
            | decide
            | ((repeat' split) <;> decide))
      | (injection h with h; exact Option.noConfusion h)
      | exact Except.noConfusion h
  rw [if_neg h5] at h
  by_cases h6 : instruction &&& 0xff00 = 0x0e00
  case pos =>
    rw [if_pos h6] at h
    simp only [bind, Except.bind, pure, Except.pure] at h
    repeat' split at h
    all_goals first
      | (injection h with h; injection h with h; subst h; dsimp only;
          first
            | decide
            | ((repeat' split) <;> decide))
      | (injection h with h; exact Option.noConfusion h)
      | exact Except.noConfusion h
  rw [if_neg h6] at h
  exact absurd h (by simp [pure, Except.pure])

set_option maxHeartbeats 1000000 in
lemma decode_op4_state_instr (cfg : Variant) (instruction : Nat) (data : List Nat)
    (st : D4) (s : String) (h : decode_op4_state cfg instruction data = .ok st)
    (hs : st.instr = some s) : s ≠ "unimplemented" := by
  unfold decode_op4_state at h

  by_cases h1 : instruction &&& 0xf100 = 0x4100
  case pos =>
    rw [if_pos h1] at h
    simp only [bind, Except.bind, pure, Except.pure] at h
    repeat' split at h
    all_goals first
      | (injection h with h; subst h; dsimp only at hs;
          first
            | exact Option.noConfusion hs
            | (injection hs with hs; subst hs;
                first | decide | ((repeat' split) <;> decide)))
      | exact Except.noConfusion h
  rw [if_neg h1] at h

  by_cases h2 : instruction >>> 8 = 0x40
  case pos =>
    rw [if_pos h2] at h
    simp only [bind, Except.bind, pure, Except.pure] at h
    repeat' split at h
    all_goals first
      | (injection h with h; subst h; dsimp only at hs;
          first
            | exact Option.noConfusion hs
            | (injection hs with hs; subst hs;
                first | decide | ((repeat' split) <;> decide)))
      | exact Except.noConfusion h
  rw [if_neg h2] at h

  by_cases h3 : instruction >>> 8 = 0x42
  case pos =>
    rw [if_pos h3] at h
    simp only [bind, Except.bind, pure, Except.pure] at h
    repeat' split at h
    all_goals first
      | (injection h with h; subst h; dsimp only at hs;
          first
            | exact Option.noConfusion hs
            | (injection hs with hs; subst hs;
                first | decide | ((repeat' split) <;> decide)))
      | exact Except.noConfusion h
  rw [if_neg h3] at h

  by_cases h4 : instruction >>> 8 = 0x44
  case pos =>
    rw [if_pos h4] at h
    simp only [bind, Except.bind, pure, Except.pure] at h
    repeat' split at h
    all_goals first
      | (injection h with h; subst h; dsimp only at hs;
          first
            | exact Option.noConfusion hs
            | (injection hs with hs; subst hs;
                first | decide | ((repeat' split) <;> decide)))
      | exact Except.noConfusion h
  rw [if_neg h4] at h

  by_cases h5 : instruction >>> 8 = 0x46
  case pos =>
    rw [if_pos h5] at h
    simp only [bind, Except.bind, pure, Except.pure] at h
    repeat' split at h
    all_goals first
      | (injection h with h; subst h; dsimp only at hs;
          first
            | exact Option.noConfusion hs
            | (injection hs with hs; subst hs;
                first | decide | ((repeat' split) <;> decide)))
      | exact Except.noConfusion h
  rw [if_neg h5] at h

  by_cases h6 : instruction >>> 8 = 0x48 ∨ instruction >>> 8 = 0x4c

  case pos =>
    rw [if_pos h6] at h

    by_cases s1 : instruction &&& 0xfff8 = 0x4808
    case pos =>
      rw [if_pos s1] at h
      simp only [bind, Except.bind, pure, Except.pure] at h
      repeat' split at h
      all_goals first
        | (injection h with h; subst h; dsimp only at hs;
            first
              | exact Option.noConfusion hs
              | (injection hs with hs; subst hs;
                  first | decide | ((repeat' split) <;> decide)))
        | exact Except.noConfusion h
    rw [if_neg s1] at h

    by_cases s2 : instruction &&& 0xffc0 = 0x4800
    case pos =>
      rw [if_pos s2] at h
      simp only [bind, Except.bind, pure, Except.pure] at h
      repeat' split at h
      all_goals first
        | (injection h with h; subst h; dsimp only at hs;
            first
              | exact Option.noConfusion hs
              | (injection hs with hs; subst hs;
                  first | decide | ((repeat' split) <;> decide)))
        | exact Except.noConfusion h
    rw [if_neg s2] at h

    by_cases s3 : instruction &&& 0xfb80 = 0x4880
    case pos =>
      rw [if_pos s3] at h
      simp only [bind, Except.bind, pure, Except.pure] at h
      repeat' split at h
      all_goals first
        | (injection h with h; subst h; dsimp only at hs;
            first
              | exact Option.noConfusion hs
              | (injection hs with hs; subst hs;
                  first | decide | ((repeat' split) <;> decide)))
        | exact Except.noConfusion h
    rw [if_neg s3] at h

    by_cases s4 : instruction &&& 0xfff8 = 0x4840
    case pos =>
      rw [if_pos s4] at h
      simp only [bind, Except.bind, pure, Except.pure] at h
      repeat' split at h
      all_goals first
        | (injection h with h; subst h; dsimp only at hs;
            first
              | exact Option.noConfusion hs
              | (injection hs with hs; subst hs;
                  first | decide | ((repeat' split) <;> decide)))
        | exact Except.noConfusion h
    rw [if_neg s4] at h

    by_cases s5 : instruction &&& 0xfff8 = 0x4848
    case pos =>
      rw [if_pos s5] at h
      simp only [bind, Except.bind, pure, Except.pure] at h
      repeat' split at h
      all_goals first
        | (injection h with h; subst h; dsimp only at hs;
            first
              | exact Option.noConfusion hs
              | (injection hs with hs; subst hs;
                  first | decide | ((repeat' split) <;> decide)))
        | exact Except.noConfusion h
    rw [if_neg s5] at h

    by_cases s6 : instruction &&& 0xffc0 = 0x4840
    case pos =>
      rw [if_pos s6] at h
      simp only [bind, Except.bind, pure, Except.pure] at h
      repeat' split at h
      all_goals first
        | (injection h with h; subst h; dsimp only at hs;
            first
              | exact Option.noConfusion hs
              | (injection hs with hs; subst hs;
                  first | decide | ((repeat' split) <;> decide)))
        | exact Except.noConfusion h
    rw [if_neg s6] at h

    by_cases s7 : instruction >>> 8 = 0x4c
    case pos =>
      rw [if_pos s7] at h
      simp only [bind, Except.bind, pure, Except.pure] at h
      repeat' split at h
      all_goals first
        | (injection h with h; subst h; dsimp only at hs;
            first
              | exact Option.noConfusion hs
              | (injection hs with hs; subst hs;
                  first | decide | ((repeat' split) <;> decide)))
        | exact Except.noConfusion h
    rw [if_neg s7] at h

    simp only [pure, Except.pure] at h
    injection h with h
    subst h
    exact Option.noConfusion hs
  rw [if_neg h6] at h

  by_cases h7 : instruction >>> 8 = 0x4a
  case pos =>
    rw [if_pos h7] at h
    simp only [bind, Except.bind, pure, Except.pure] at h
    repeat' split at h
    all_goals first
      | (injection h with h; subst h; dsimp only at hs;
          first
            | exact Option.noConfusion hs
            | (injection hs with hs; subst hs;
                first | decide | ((repeat' split) <;> decide)))
      | exact Except.noConfusion h
  rw [if_neg h7] at h

  by_cases h8 : instruction >>> 8 = 0x4e

  case pos =>
    rw [if_pos h8] at h

    by_cases u1 : instruction &&& 0xfff0 = 0x4e40
    case pos =>
      rw [if_pos u1] at h
      simp only [bind, Except.bind, pure, Except.pure] at h
      repeat' split at h
      all_goals first
        | (injection h with h; subst h; dsimp only at hs;
            first
              | exact Option.noConfusion hs
              | (injection hs with hs; subst hs;
                  first | decide | ((repeat' split) <;> decide)))
        | exact Except.noConfusion h
    rw [if_neg u1] at h

    by_cases u2 : instruction &&& 0xfff0 = 0x4e50
    case pos =>
      rw [if_pos u2] at h
      simp only [bind, Except.bind, pure, Except.pure] at h
      repeat' split at h
      all_goals first
        | (injection h with h; subst h; dsimp only at hs;
            first
              | exact Option.noConfusion hs
              | (injection hs with hs; subst hs;
                  first | decide | ((repeat' split) <;> decide)))
        | exact Except.noConfusion h
    rw [if_neg u2] at h

    by_cases u3 : instruction &&& 0xfff0 = 0x4e60
    case pos =>
      rw [if_pos u3] at h
      simp only [bind, Except.bind, pure, Except.pure] at h
      repeat' split at h
      all_goals first
        | (injection h with h; subst h; dsimp only at hs;
            first
              | exact Option.noConfusion hs
              | (injection hs with hs; subst hs;
                  first | decide | ((repeat' split) <;> decide)))
        | exact Except.noConfusion h
    rw [if_neg u3] at h

    by_cases u4 : instruction = 0x4e70
    case pos =>
      rw [if_pos u4] at h
      simp only [bind, Except.bind, pure, Except.pure] at h
      repeat' split at h
      all_goals first
        | (injection h with h; subst h; dsimp only at hs;
            first
              | exact Option.noConfusion hs
              | (injection hs with hs; subst hs;
                  first | decide | ((repeat' split) <;> decide)))
        | exact Except.noConfusion h
    rw [if_neg u4] at h

    by_cases u5 : instruction = 0x4e71
    case pos =>
      rw [if_pos u5] at h
      simp only [bind, Except.bind, pure, Except.pure] at h
      repeat' split at h
      all_goals first
        | (injection h with h; subst h; dsimp only at hs;
            first
              | exact Option.noConfusion hs
              | (injection hs with hs; subst hs;
                  first | decide | ((repeat' split) <;> decide)))
        | exact Except.noConfusion h
    rw [if_neg u5] at h

    by_cases u6 : instruction = 0x4e72
    case pos =>
      rw [if_pos u6] at h
      simp only [bind, Except.bind, pure, Except.pure] at h
      repeat' split at h
      all_goals first
        | (injection h with h; subst h; dsimp only at hs;
            first
              | exact Option.noConfusion hs
              | (injection hs with hs; subst hs;
                  first | decide | ((repeat' split) <;> decide)))
        | exact Except.noConfusion h
    rw [if_neg u6] at h

    by_cases u7 : instruction = 0x4e73
    case pos =>
      rw [if_pos u7] at h
      simp only [bind, Except.bind, pure, Except.pure] at h
      repeat' split at h
      all_goals first
        | (injection h with h; subst h; dsimp only at hs;
            first
              | exact Option.noConfusion hs
              | (injection hs with hs; subst hs;
                  first | decide | ((repeat' split) <;> decide)))
        | exact Except.noConfusion h
    rw [if_neg u7] at h

    by_cases u8 : instruction = 0x4e74
    case pos =>
      rw [if_pos u8] at h
      simp only [bind, Except.bind, pure, Except.pure] at h
      repeat' split at h
      all_goals first
        | (injection h with h; subst h; dsimp only at hs;
            first
              | exact Option.noConfusion hs
              | (injection hs with hs; subst hs;
                  first | decide | ((repeat' split) <;> decide)))
        | exact Except.noConfusion h
    rw [if_neg u8] at h

    by_cases u9 : instruction = 0x4e75
    case pos =>
      rw [if_pos u9] at h
      simp only [bind, Except.bind, pure, Except.pure] at h
      repeat' split at h
      all_goals first
        | (injection h with h; subst h; dsimp only at hs;
            first
              | exact Option.noConfusion hs
              | (injection hs with hs; subst hs;
                  first | decide | ((repeat' split) <;> decide)))
        | exact Except.noConfusion h
    rw [if_neg u9] at h

    by_cases u10 : instruction = 0x4e76
    case pos =>
      rw [if_pos u10] at h
      simp only [bind, Except.bind, pure, Except.pure] at h
      repeat' split at h
      all_goals first
        | (injection h with h; subst h; dsimp only at hs;
            first
              | exact Option.noConfusion hs
              | (injection hs with hs; subst hs;
                  first | decide | ((repeat' split) <;> decide)))
        | exact Except.noConfusion h
    rw [if_neg u10] at h

    by_cases u11 : instruction = 0x4e77
    case pos =>
      rw [if_pos u11] at h
      simp only [bind, Except.bind, pure, Except.pure] at h
      repeat' split at h
      all_goals first
        | (injection h with h; subst h; dsimp only at hs;
            first
              | exact Option.noConfusion hs
              | (injection hs with hs; subst hs;
                  first | decide | ((repeat' split) <;> decide)))
        | exact Except.noConfusion h
    rw [if_neg u11] at h

    by_cases u12 : instruction &&& 0xfffe = 0x4e7a
    case pos =>
      rw [if_pos u12] at h
      simp only [bind, Except.bind, pure, Except.pure] at h
      repeat' split at h
      all_goals first
        | (injection h with h; subst h; dsimp only at hs;
            first
              | exact Option.noConfusion hs
              | (injection hs with hs; subst hs;
                  first | decide | ((repeat' split) <;> decide)))
        | exact Except.noConfusion h
    rw [if_neg u12] at h

    by_cases u13 : instruction &&& 0xff80 = 0x4e80
    case pos =>
      rw [if_pos u13] at h
      simp only [bind, Except.bind, pure, Except.pure] at h
      repeat' split at h
      all_goals first
        | (injection h with h; subst h; dsimp only at hs;
            first
              | exact Option.noConfusion hs
              | (injection hs with hs; subst hs;
                  first | decide | ((repeat' split) <;> decide)))
        | exact Except.noConfusion h
    rw [if_neg u13] at h

    simp only [pure, Except.pure] at h
    injection h with h
    subst h
    exact Option.noConfusion hs
  rw [if_neg h8] at h
  simp only [pure, Except.pure] at h
  injection h with h
  subst h
  exact Option.noConfusion hs

set_option maxHeartbeats 1000000 in
lemma decode_op4_good (cfg : Variant) (instruction : Nat) (data : List Nat) (d : Decoded)
    (h : decode_op4 cfg instruction data = .ok (some d)) : d.instr ≠ "unimplemented" := by
  unfold decode_op4 at h
  simp only [bind, Except.bind, pure, Except.pure] at h
  repeat' split at h
  all_goals first
    | (injection h with h; injection h with h; subst h; dsimp only;
        exact decode_op4_state_instr cfg instruction data _ _ (by assumption) (by assumption))
    | (injection h with h; exact Option.noConfusion h)
    | exact Except.noConfusion h

set_option maxHeartbeats 1000000 in
lemma decode_opF_good (cfg : Variant) (instruction : Nat) (data : List Nat) (d : Decoded)
    (h : decode_opF cfg instruction data = .ok (some d)) : d.instr ≠ "unimplemented" := by
  unfold decode_opF at h
  by_cases c1 : instruction &&& 0xfe00 = 0xf200
  case pos =>
    rw [if_pos c1] at h
    by_cases f0 : (instruction >>> 6) &&& 7 = 0
    case pos =>
      rw [if_pos f0] at h
      rcases hextra : readU16 data 2 with e | extra
      on_goal 1 =>
        rw [hextra] at h
        exact Except.noConfusion h
      rw [hextra] at h
      simp only [py_bind_ok] at h
      by_cases g1 : extra >>> 13 &&& 5 = 0
      case pos =>
        rw [if_pos g1] at h

        by_cases q0 : (extra &&& 0x7f) >>> 3 = 6
        case pos =>
          rw [if_pos q0] at h
          simp only [bind, Except.bind, pure, Except.pure] at h
          repeat' split at h
          all_goals first
            | (injection h with h; injection h with h; subst h; dsimp only;
                first
                  | decide
                  | exact fpcond_append_ne _ (by decide) _
                  | (rcases ite_some_inv (by assumption) with rfl | rfl | rfl <;> decide)
                  | ((repeat' split) <;> first
                      | decide
                      | exact fpcond_append_ne _ (by decide) _))
            | (injection h with h; exact Option.noConfusion h)
            | exact Except.noConfusion h
        rw [if_neg q0] at h

        by_cases q1 : extra &&& 0x7f = 4 ∨ (extra &&& 0x7f) &&& 0x63 = 0x41
        case pos =>
          rw [if_pos q1] at h
          simp only [bind, Except.bind, pure, Except.pure] at h
          repeat' split at h
          all_goals first
            | (injection h with h; injection h with h; subst h; dsimp only;
                first
                  | decide
                  | exact fpcond_append_ne _ (by decide) _
                  | (rcases ite_some_inv (by assumption) with rfl | rfl | rfl <;> decide)
                  | ((repeat' split) <;> first
                      | decide
                      | exact fpcond_append_ne _ (by decide) _))
            | (injection h with h; exact Option.noConfusion h)
            | exact Except.noConfusion h
        rw [if_neg q1] at h

        by_cases q2 : (extra &&& 0x7f) &&& 0x3b = 0
        case pos =>
          rw [if_pos q2] at h
          simp only [bind, Except.bind, pure, Except.pure] at h
          repeat' split at h
          all_goals first
            | (injection h with h; injection h with h; subst h; dsimp only;
                first
                  | decide
                  | exact fpcond_append_ne _ (by decide) _
                  | (rcases ite_some_inv (by assumption) with rfl | rfl | rfl <;> decide)
                  | ((repeat' split) <;> first
                      | decide
                      | exact fpcond_append_ne _ (by decide) _))
            | (injection h with h; exact Option.noConfusion h)
            | exact Except.noConfusion h
        rw [if_neg q2] at h

        by_cases q3 : (extra &&& 0x7f) &&& 0x3b = 0x18
        case pos =>
          rw [if_pos q3] at h
          simp only [bind, Except.bind, pure, Except.pure] at h
          repeat' split at h
          all_goals first
            | (injection h with h; injection h with h; subst h; dsimp only;
                first
                  | decide
                  | exact fpcond_append_ne _ (by decide) _
                  | (rcases ite_some_inv (by assumption) with rfl | rfl | rfl <;> decide)
                  | ((repeat' split) <;> first
                      | decide
                      | exact fpcond_append_ne _ (by decide) _))
            | (injection h with h; exact Option.noConfusion h)
            | exact Except.noConfusion h
        rw [if_neg q3] at h

        by_cases q4 : (extra &&& 0x7f) &&& 0x3b = 0x1a
        case pos =>
          rw [if_pos q4] at h
          simp only [bind, Except.bind, pure, Except.pure] at h
          repeat' split at h
          all_goals first
            | (injection h with h; injection h with h; subst h; dsimp only;
                first
                  | decide
                  | exact fpcond_append_ne _ (by decide) _
                  | (rcases ite_some_inv (by assumption) with rfl | rfl | rfl <;> decide)
                  | ((repeat' split) <;> first
                      | decide
                      | exact fpcond_append_ne _ (by decide) _))
            | (injection h with h; exact Option.noConfusion h)
            | exact Except.noConfusion h
        rw [if_neg q4] at h

        by_cases q5 : (extra &&& 0x7f) &&& 0x3b = 0x20
        case pos =>
          rw [if_pos q5] at h
          simp only [bind, Except.bind, pure, Except.pure] at h
          repeat' split at h
          all_goals first
            | (injection h with h; injection h with h; subst h; dsimp only;
                first
                  | decide
                  | exact fpcond_append_ne _ (by decide) _
                  | (rcases ite_some_inv (by assumption) with rfl | rfl | rfl <;> decide)
                  | ((repeat' split) <;> first
                      | decide
                      | exact fpcond_append_ne _ (by decide) _))
            | (injection h with h; exact Option.noConfusion h)
            | exact Except.noConfusion h
        rw [if_neg q5] at h

        by_cases q6 : (extra &&& 0x7f) &&& 0x3b = 0x22
        case pos =>
          rw [if_pos q6] at h
          simp only [bind, Except.bind, pure, Except.pure] at h
          repeat' split at h
          all_goals first
            | (injection h with h; injection h with h; subst h; dsimp only;
                first
                  | decide
                  | exact fpcond_append_ne _ (by decide) _
                  | (rcases ite_some_inv (by assumption) with rfl | rfl | rfl <;> decide)
                  | ((repeat' split) <;> first
                      | decide
                      | exact fpcond_append_ne _ (by decide) _))
            | (injection h with h; exact Option.noConfusion h)
            | exact Except.noConfusion h
        rw [if_neg q6] at h

        by_cases q7 : (extra &&& 0x7f) &&& 0x3b = 0x23
        case pos =>
          rw [if_pos q7] at h
          simp only [bind, Except.bind, pure, Except.pure] at h
          repeat' split at h
          all_goals first
            | (injection h with h; injection h with h; subst h; dsimp only;
                first
                  | decide
                  | exact fpcond_append_ne _ (by decide) _
                  | (rcases ite_some_inv (by assumption) with rfl | rfl | rfl <;> decide)
                  | ((repeat' split) <;> first
                      | decide
                      | exact fpcond_append_ne _ (by decide) _))
            | (injection h with h; exact Option.noConfusion h)
            | exact Except.noConfusion h
        rw [if_neg q7] at h

        by_cases q8 : (extra &&& 0x7f) &&& 0x3b = 0x28
        case pos =>
          rw [if_pos q8] at h
          simp only [bind, Except.bind, pure, Except.pure] at h
          repeat' split at h
          all_goals first
            | (injection h with h; injection h with h; subst h; dsimp only;
                first
                  | decide
                  | exact fpcond_append_ne _ (by decide) _
                  | (rcases ite_some_inv (by assumption) with rfl | rfl | rfl <;> decide)
                  | ((repeat' split) <;> first
                      | decide
                      | exact fpcond_append_ne _ (by decide) _))
            | (injection h with h; exact Option.noConfusion h)
            | exact Except.noConfusion h
        rw [if_neg q8] at h

        by_cases q9 : (extra &&& 0x7f) &&& 0x3b = 0x38
        case pos =>
          rw [if_pos q9] at h
          simp only [bind, Except.bind, pure, Except.pure] at h
          repeat' split at h
          all_goals first
            | (injection h with h; injection h with h; subst h; dsimp only;
                first
                  | decide
                  | exact fpcond_append_ne _ (by decide) _
                  | (rcases ite_some_inv (by assumption) with rfl | rfl | rfl <;> decide)
                  | ((repeat' split) <;> first
                      | decide
                      | exact fpcond_append_ne _ (by decide) _))
            | (injection h with h; exact Option.noConfusion h)
            | exact Except.noConfusion h
        rw [if_neg q9] at h

        by_cases q10 : (extra &&& 0x7f) &&& 0x3b = 0x3a
        case pos =>
          rw [if_pos q10] at h
          simp only [bind, Except.bind, pure, Except.pure] at h
          repeat' split at h
          all_goals first
            | (injection h with h; injection h with h; subst h; dsimp only;
                first
                  | decide
                  | exact fpcond_append_ne _ (by decide) _
                  | (rcases ite_some_inv (by assumption) with rfl | rfl | rfl <;> decide)
                  | ((repeat' split) <;> first
                      | decide
                      | exact fpcond_append_ne _ (by decide) _))
            | (injection h with h; exact Option.noConfusion h)
            | exact Except.noConfusion h
        rw [if_neg q10] at h

        simp only [bind, Except.bind, pure, Except.pure] at h
        repeat' split at h
        all_goals first
          | (injection h with h; injection h with h; subst h; dsimp only;
              first
                | decide
                | exact fpcond_append_ne _ (by decide) _
                | (rcases ite_some_inv (by assumption) with rfl | rfl | rfl <;> decide)
                | ((repeat' split) <;> first
                    | decide
                    | exact fpcond_append_ne _ (by decide) _))
          | (injection h with h; exact Option.noConfusion h)
          | exact Except.noConfusion h

      rw [if_neg g1] at h

      by_cases g2 : extra >>> 13 = 3
      case pos =>
        rw [if_pos g2] at h
        simp only [bind, Except.bind, pure, Except.pure] at h
        repeat' split at h
        all_goals first
          | (injection h with h; injection h with h; subst h; dsimp only;
              first
                | decide
                | exact fpcond_append_ne _ (by decide) _
                | (rcases ite_some_inv (by assumption) with rfl | rfl | rfl <;> decide)
                | ((repeat' split) <;> first
                    | decide
                    | exact fpcond_append_ne _ (by decide) _))
          | (injection h with h; exact Option.noConfusion h)
          | exact Except.noConfusion h
      rw [if_neg g2] at h

      by_cases g3 : extra >>> 13 &&& 6 = 4
      case pos =>
        rw [if_pos g3] at h
        simp only [bind, Except.bind, pure, Except.pure] at h
        repeat' split at h
        all_goals first
          | (injection h with h; injection h with h; subst h; dsimp only;
              first
                | decide
                | exact fpcond_append_ne _ (by decide) _
                | (rcases ite_some_inv (by assumption) with rfl | rfl | rfl <;> decide)
                | ((repeat' split) <;> first
                    | decide
                    | exact fpcond_append_ne _ (by decide) _))
          | (injection h with h; exact Option.noConfusion h)
          | exact Except.noConfusion h
      rw [if_neg g3] at h

      by_cases g4 : extra >>> 13 &&& 6 = 6
      case pos =>
        rw [if_pos g4] at h
        simp only [bind, Except.bind, pure, Except.pure] at h
        repeat' split at h
        all_goals first
          | (injection h with h; injection h with h; subst h; dsimp only;
              first
                | decide
                | exact fpcond_append_ne _ (by decide) _
                | (rcases ite_some_inv (by assumption) with rfl | rfl | rfl <;> decide)
                | ((repeat' split) <;> first
                    | decide
                    | exact fpcond_append_ne _ (by decide) _))
          | (injection h with h; exact Option.noConfusion h)
          | exact Except.noConfusion h
      rw [if_neg g4] at h

      simp only [bind, Except.bind, pure, Except.pure] at h
      repeat' split at h
      all_goals first
        | (injection h with h; injection h with h; subst h; dsimp only;
            first
              | decide
              | exact fpcond_append_ne _ (by decide) _
              | (rcases ite_some_inv (by assumption) with rfl | rfl | rfl <;> decide)
              | ((repeat' split) <;> first
                  | decide
                  | exact fpcond_append_ne _ (by decide) _))
        | (injection h with h; exact Option.noConfusion h)
        | exact Except.noConfusion h

    rw [if_neg f0] at h

    by_cases f1 : (instruction >>> 6) &&& 7 = 1
    case pos =>
      rw [if_pos f1] at h
      simp only [bind, Except.bind, pure, Except.pure] at h
      repeat' split at h
      all_goals first
        | (injection h with h; injection h with h; subst h; dsimp only;
            first
              | decide
              | exact fpcond_append_ne _ (by decide) _
              | (rcases ite_some_inv (by assumption) with rfl | rfl | rfl <;> decide)
              | ((repeat' split) <;> first
                  | decide
                  | exact fpcond_append_ne _ (by decide) _))
        | (injection h with h; exact Option.noConfusion h)
        | exact Except.noConfusion h
    rw [if_neg f1] at h

    by_cases f2 : ((instruction >>> 6) &&& 7) &&& 2 = 2
    case pos =>
      rw [if_pos f2] at h
      simp only [bind, Except.bind, pure, Except.pure] at h
      repeat' split at h
      all_goals first
        | (injection h with h; injection h with h; subst h; dsimp only;
            first
              | decide
              | exact fpcond_append_ne _ (by decide) _
              | (rcases ite_some_inv (by assumption) with rfl | rfl | rfl <;> decide)
              | ((repeat' split) <;> first
                  | decide
                  | exact fpcond_append_ne _ (by decide) _))
        | (injection h with h; exact Option.noConfusion h)
        | exact Except.noConfusion h
    rw [if_neg f2] at h

    by_cases f3 : ((instruction >>> 6) &&& 7) &&& 4 = 4
    case pos =>
      rw [if_pos f3] at h
      simp only [bind, Except.bind, pure, Except.pure] at h
      repeat' split at h
      all_goals first
        | (injection h with h; injection h with h; subst h; dsimp only;
            first
              | decide
              | exact fpcond_append_ne _ (by decide) _
              | (rcases ite_some_inv (by assumption) with rfl | rfl | rfl <;> decide)
              | ((repeat' split) <;> first
                  | decide
                  | exact fpcond_append_ne _ (by decide) _))
        | (injection h with h; exact Option.noConfusion h)
        | exact Except.noConfusion h
    rw [if_neg f3] at h

    simp only [bind, Except.bind, pure, Except.pure] at h
    repeat' split at h
    all_goals first
      | (injection h with h; injection h with h; subst h; dsimp only;
          first
            | decide
            | exact fpcond_append_ne _ (by decide) _
            | (rcases ite_some_inv (by assumption) with rfl | rfl | rfl <;> decide)
            | ((repeat' split) <;> first
                | decide
                | exact fpcond_append_ne _ (by decide) _))
      | (injection h with h; exact Option.noConfusion h)
      | exact Except.noConfusion h

  rw [if_neg c1] at h

  simp only [bind, Except.bind, pure, Except.pure] at h
  repeat' split at h
  all_goals first
    | (injection h with h; injection h with h; subst h; dsimp only;
        first
          | decide
          | exact fpcond_append_ne _ (by decide) _
          | (rcases ite_some_inv (by assumption) with rfl | rfl | rfl <;> decide)
          | ((repeat' split) <;> first
              | decide
              | exact fpcond_append_ne _ (by decide) _))
    | (injection h with h; exact Option.noConfusion h)
    | exact Except.noConfusion h

lemma decode_dispatch_good (cfg : Variant) (oc instruction : Nat) (data : List Nat)
    (d : Decoded) (h : decode_dispatch cfg oc instruction data = .ok (some d)) :
    d.instr ≠ "unimplemented" := by
  unfold decode_dispatch at h
  by_cases d0 : oc = 0x0
  case pos =>
    rw [if_pos d0] at h
    exact decode_op0_good _ _ _ _ h
  rw [if_neg d0] at h
  by_cases dm : oc = 0x1 ∨ oc = 0x2 ∨ oc = 0x3
  case pos =>
    rw [if_pos dm] at h
    exact decode_move_good _ _ _ _ _ h
  rw [if_neg dm] at h
  by_cases d4 : oc = 0x4
  case pos =>
    rw [if_pos d4] at h
    exact decode_op4_good _ _ _ _ h
  rw [if_neg d4] at h
  by_cases d5 : oc = 0x5
  case pos =>
    rw [if_pos d5] at h
    exact decode_op5_good _ _ _ _ h
  rw [if_neg d5] at h
  by_cases d6 : oc = 0x6
  case pos =>
    rw [if_pos d6] at h
    exact decode_op6_good _ _ _ h
  rw [if_neg d6] at h
  by_cases d7 : oc = 0x7
  case pos =>
    rw [if_pos d7] at h
    exact decode_op7_good _ _ h
  rw [if_neg d7] at h
  by_cases d8 : oc = 0x8
  case pos =>
    rw [if_pos d8] at h
    exact decode_op8_good _ _ _ _ h
  rw [if_neg d8] at h
  by_cases d9 : oc = 0x9
  case pos =>
    rw [if_pos d9] at h
    exact decode_op9_good _ _ _ _ h
  rw [if_neg d9] at h
  by_cases da : oc = 0xa
  case pos =>
    rw [if_pos da] at h
    injection h with h; exact Option.noConfusion h
  rw [if_neg da] at h
  by_cases db : oc = 0xb
  case pos =>
    rw [if_pos db] at h
    exact decode_opB_good _ _ _ _ h
  rw [if_neg db] at h
  by_cases dc : oc = 0xc
  case pos =>
    rw [if_pos dc] at h
    exact decode_opC_good _ _ _ _ h
  rw [if_neg dc] at h
  by_cases dd : oc = 0xd
  case pos =>
    rw [if_pos dd] at h
    exact decode_opD_good _ _ _ _ h
  rw [if_neg dd] at h
  by_cases de : oc = 0xe
  case pos =>
    rw [if_pos de] at h
    exact decode_opE_good _ _ _ _ h
  rw [if_neg de] at h
  by_cases df : oc = 0xf
  case pos =>
    rw [if_pos df] at h
    exact decode_opF_good _ _ _ _ h
  rw [if_neg df] at h
  injection h with h
  exact Option.noConfusion h

/-- Claim C2 as amended: whenever `decode_instruction` reports the
`unimplemented` sentinel, the reported length is the FULL length of the
buffer that was passed in (`len(data)`), regardless of where decoding
failed; it is not `2` plus the extension bytes consumed before failing. -/
theorem C2_sentinel_length_is_input_length (cfg : Variant) (data : List Nat) (addr : Nat)
    (d : Decoded) (h : decode_instruction cfg data addr = .ok d)
    (hu : d.instr = "unimplemented") : d.length = some data.length := by
  unfold decode_instruction at h
  by_cases hlen : data.length < 2
  · rw [if_pos hlen] at h
    simp only [pure, Except.pure] at h
    injection h with h
    subst h
    rfl
  rw [if_neg hlen] at h
  simp only [bind, Except.bind, pure, Except.pure] at h
  repeat' split at h
  all_goals first
    | exact Except.noConfusion h
    | (injection h with h; subst h; rfl)
    | (injection h with h; subst h;
        exact absurd hu (decode_dispatch_good _ _ _ _ _ (by assumption)))

/-- Witness for the amended C2: the failing input `a0 00 00 00` reports
length 4, the full buffer length. -/
theorem C2_sentinel_length_is_input_length_witness :
    (⟨"unimplemented", some 4, none, none, none, none⟩ : Decoded).length =
      some ([0xa0, 0x00, 0x00, 0x00] : List Nat).length :=
  C2_sentinel_length_is_input_length M68000 [0xa0, 0x00, 0x00, 0x00] 0
    ⟨"unimplemented", some 4, none, none, none, none⟩ rfl rfl

end M68k

namespace M68k

/-! ## Claims C7 and C9 -/

lemma word_hi (a b : Nat) (hb : b < 256) : (256 * a + b) >>> 8 = a := by
  rw [Nat.shiftRight_eq_div_pow]
  norm_num
  omega

lemma word_lo (a b : Nat) (hb : b < 256) : (256 * a + b) &&& 255 = b := by
  rw [show (255 : Nat) = 2 ^ 8 - 1 by norm_num, Nat.and_pow_two_sub_one_eq_mod]
  omega

/-- The byte-displacement expression of the nibble-6 decoder is exactly
two's-complement sign extension of the low opcode byte. -/
lemma sign8 (b1 : Nat) (hb1 : b1 < 256) :
    (if b1 &&& 0x80 ≠ 0 then (b1 : Int) - 256 else (b1 : Int)) = toSigned 8 b1 := by
  have h128 : b1 &&& 128 = 128 * (b1 / 128) := by
    have h := and_mask_hi b1 7 8 (by norm_num) (by omega)
    norm_num at h
    exact h
  unfold toSigned
  rcases Nat.lt_or_ge b1 128 with hlt | hge
  · rw [h128, Nat.div_eq_of_lt hlt]
    rw [if_neg (by simp)]
    rw [if_pos (by norm_num; omega)]
  · have hone : b1 / 128 = 1 := by omega
    rw [h128, hone]
    rw [if_pos (by norm_num)]
    rw [if_neg (by norm_num; omega)]
    norm_num

/-- The mnemonic decoded for an opcode word with high byte `0x60 + k`
(the `msb` tests of the nibble-6 branch). -/
def bcc_mnemonic (k : Nat) : String :=
  if 96 + k = 0x60 then "bra" else if 96 + k = 0x61 then "bsr"
  else "b" ++ idx Condition ((96 + k) &&& 0xf)

/-- Claim C7: for every opcode word with high nibble 6 (`bra`/`bsr`/Bcc),
a zero low opcode byte makes decode consume 4 bytes with the following
signed 16-bit word as displacement; a low byte of `0xff` consumes
6 bytes with the following 32-bit value; any other low byte consumes
2 bytes with the sign-extended low byte itself as displacement. -/
theorem C7_bcc_displacement_forms (cfg : Variant) (k b1 r0 r1 r2 r3 : Nat)
    (rest rest2 rest3 : List Nat) (addr : Nat) (hk : k < 16) (hb1 : b1 < 256)
    (hb0 : b1 ≠ 0) (hbff : b1 ≠ 0xff) :
    decode_instruction cfg ((96 + k) :: 0 :: r0 :: r1 :: rest) addr =
      .ok ⟨bcc_mnemonic k, some 4, none, none,
        some (.RegisterIndirectDisplacement (some 4) "pc" (toSigned 16 (256 * r0 + r1))), none⟩ ∧
    decode_instruction cfg ((96 + k) :: 0xff :: r0 :: r1 :: r2 :: r3 :: rest2) addr =
      .ok ⟨bcc_mnemonic k, some 6, none, none,
        some (.RegisterIndirectDisplacement (some 4) "pc"
          (Int.ofNat (65536 * (256 * r0 + r1) + (256 * r2 + r3)))), none⟩ ∧
    decode_instruction cfg ((96 + k) :: b1 :: rest3) addr =
      .ok ⟨bcc_mnemonic k, some 2, none, none,
        some (.RegisterIndirectDisplacement (some 4) "pc" (toSigned 8 b1)), none⟩ := by
  refine ⟨?_, ?_, ?_⟩
  · rw [decode_instruction_cons]
    interval_cases k <;> rfl
  · rw [decode_instruction_cons]
    interval_cases k <;> rfl
  · rw [decode_instruction_cons]
    unfold decode_dispatch decode_op6
    rw [word_hi _ _ hb1, word_lo _ _ hb1, if_neg hb0, if_neg hbff, sign8 b1 hb1]
    interval_cases k <;> rfl

/-- Witness for C7 at `bcc` (condition nibble 4) with displacement
byte `0x7e`. -/
theorem C7_bcc_displacement_forms_witness :
    decode_instruction M68000 ((96 + 4) :: 0 :: 1 :: 2 :: []) 0 =
      .ok ⟨bcc_mnemonic 4, some 4, none, none,
        some (.RegisterIndirectDisplacement (some 4) "pc" (toSigned 16 (256 * 1 + 2))), none⟩ ∧
    decode_instruction M68000 ((96 + 4) :: 0xff :: 1 :: 2 :: 3 :: 4 :: []) 0 =
      .ok ⟨bcc_mnemonic 4, some 6, none, none,
        some (.RegisterIndirectDisplacement (some 4) "pc"
          (Int.ofNat (65536 * (256 * 1 + 2) + (256 * 3 + 4)))), none⟩ ∧
    decode_instruction M68000 ((96 + 4) :: 0x7e :: []) 0 =
      .ok ⟨bcc_mnemonic 4, some 2, none, none,
        some (.RegisterIndirectDisplacement (some 4) "pc" (toSigned 8 0x7e)), none⟩ :=
  C7_bcc_displacement_forms M68000 4 0x7e 1 2 3 4 [] [] [] 0
    (by decide) (by decide) (by decide) (by decide)

set_option maxHeartbeats 3200000 in
/-- Claim C9: for every `db<cond>` instruction with its PC-relative
16-bit displacement target, the analyzer reports the TRUE branch at the
fall-through address (`addr + length`) and the FALSE branch at the
displacement target — the inverse of the plain Bcc family
(conditions 2..15, 16-bit-displacement form shown), whose TRUE branch
is the target and FALSE branch the fall-through. -/
theorem C9_dbcc_branch_inversion (cfg : Variant) (c n j r0 r1 r2 r3 : Nat)
    (rest rest2 : List Nat) (addr : Nat)
    (hc : c < 16) (hn : n < 8) (hj : 2 ≤ j) (hj2 : j < 16) :
    perform_get_instruction_info cfg ((80 + c) :: (200 + n) :: r0 :: r1 :: rest) addr =
      .ok (some ⟨some 4,
        [(.TrueBranch, some (Int.ofNat (addr + 4))),
         (.FalseBranch, some ((addr : Int) + 2 + toSigned 16 (256 * r0 + r1)))]⟩) ∧
    perform_get_instruction_info cfg ((96 + j) :: 0 :: r2 :: r3 :: rest2) addr =
      .ok (some ⟨some 4,
        [(.TrueBranch, some ((addr : Int) + 2 + toSigned 16 (256 * r2 + r3))),
         (.FalseBranch, some (Int.ofNat (addr + 4)))]⟩) := by
  constructor
  · unfold perform_get_instruction_info
    rw [decode_instruction_cons]
    interval_cases c <;> interval_cases n <;> rfl
  · unfold perform_get_instruction_info
    rw [decode_instruction_cons]
    interval_cases j <;> rfl

/-- Witness for C9 at `dbhi d0, +16` and `bhi +16`. -/
theorem C9_dbcc_branch_inversion_witness :
    perform_get_instruction_info M68000 ((80 + 2) :: (200 + 0) :: 0 :: 16 :: []) 0 =
      .ok (some ⟨some 4,
        [(.TrueBranch, some (Int.ofNat (0 + 4))),
         (.FalseBranch, some ((0 : Int) + 2 + toSigned 16 (256 * 0 + 16)))]⟩) ∧
    perform_get_instruction_info M68000 ((96 + 2) :: 0 :: 0 :: 16 :: []) 0 =
      .ok (some ⟨some 4,
        [(.TrueBranch, some ((0 : Int) + 2 + toSigned 16 (256 * 0 + 16))),
         (.FalseBranch, some (Int.ofNat (0 + 4)))]⟩) :=
  C9_dbcc_branch_inversion M68000 2 0 2 0 16 0 16 [] [] 0
    (by decide) (by decide) (by decide) (by decide)

end M68k

namespace M68k

/-! ## Claim C6 -/

/-- A word-to-long `sign_extend` preserves the signed value: the 32-bit
result read as signed equals the 16-bit input read as signed. -/
lemma sext_word_signed (x : Nat) (hx : x < 2 ^ 16) :
    toSigned 32 (sext 2 4 x % 2 ^ 32) = toSigned 16 x := by
  unfold sext toSigned
  norm_num
  split_ifs <;> push_cast <;> omega

/-- Claim C6: running the register-direct destination write emitted by
the lifter shows that a byte write to a data register yields
`2^8 * (old / 2^8) + value % 2^8` (only the low 8 bits change), a word
write yields `2^16 * (old / 2^16) + value % 2^16` (only the low 16 bits
change), and a word write to an address register stores a 32-bit value
that, read as signed, equals the written 16-bit value read as signed
(sign extension). -/
theorem C6_register_direct_write_semantics
    (dn an : String) (hdn : isAddressRegisterName dn = false) (hccr : dn ≠ "ccr")
    (han : isAddressRegisterName an = true) (hanc : an ≠ "ccr")
    (st : MState) (v : Expr) (fl : String)
    (hdreg : st.regs (.r dn) < 2 ^ 32)
    (hsz : Expr.sz v = 2) :
    (runIL [OpRegisterDirect_get_dest_il (some 1) dn v fl] 0 st 2).readReg (.r dn) =
      2 ^ 8 * (st.regs (.r dn) / 2 ^ 8) + evalExpr st v % 2 ^ 8 ∧
    (runIL [OpRegisterDirect_get_dest_il (some 2) dn v fl] 0 st 2).readReg (.r dn) =
      2 ^ 16 * (st.regs (.r dn) / 2 ^ 16) + evalExpr st v % 2 ^ 16 ∧
    toSigned 32 ((runIL [OpRegisterDirect_get_dest_il (some 2) an v fl] 0 st 2).readReg (.r an)) =
      toSigned 16 (evalExpr st v % 2 ^ 16) := by
  refine ⟨?_, ?_, ?_⟩
  · unfold OpRegisterDirect_get_dest_il
    rw [if_neg hccr, if_pos (show (some 1 : Option Nat) = some (afs DATA_BYTE) from rfl),
      if_neg (by simp [hdn])]
    simp [runIL, Outcome.readReg, evalExpr]
    norm_num
    have hdreg' : st.regs (.r dn) < 4294967296 := by norm_num at hdreg; exact hdreg
    rw [Nat.mod_eq_of_lt hdreg']
    rw [Nat.mod_eq_of_lt (lt_of_le_of_lt Nat.and_le_left (by norm_num))]
    rw [Nat.mod_eq_of_lt (lt_of_le_of_lt Nat.and_le_left (by norm_num))]
    have hm := masked_merge (st.regs (.r dn)) (evalExpr st v) 8 (by norm_num) (by norm_num) hdreg
    norm_num at hm
    rw [show (Int.toNat 4294967040 : Nat) = 4294967040 from rfl,
      show (Int.toNat 255 : Nat) = 255 from rfl,
      Nat.land_comm 4294967040 (st.regs (.r dn))]
    exact hm
  · unfold OpRegisterDirect_get_dest_il
    rw [if_neg hccr, if_neg (by decide),
      if_pos (show (some 2 : Option Nat) = some (afs DATA_WORD) from rfl),
      if_neg (by simp [hdn])]
    simp [runIL, Outcome.readReg, evalExpr]
    norm_num
    have hdreg' : st.regs (.r dn) < 4294967296 := by norm_num at hdreg; exact hdreg
    rw [Nat.mod_eq_of_lt hdreg']
    rw [Nat.mod_eq_of_lt (lt_of_le_of_lt Nat.and_le_left (by norm_num))]
    rw [Nat.mod_eq_of_lt (lt_of_le_of_lt Nat.and_le_left (by norm_num))]
    have hm := masked_merge (st.regs (.r dn)) (evalExpr st v) 16 (by norm_num) (by norm_num) hdreg
    norm_num at hm
    rw [show (Int.toNat 4294901760 : Nat) = 4294901760 from rfl,
      show (Int.toNat 65535 : Nat) = 65535 from rfl,
      Nat.land_comm 4294901760 (st.regs (.r dn))]
    exact hm
  · unfold OpRegisterDirect_get_dest_il
    rw [if_neg hanc, if_neg (by decide),
      if_pos (show (some 2 : Option Nat) = some (afs DATA_WORD) from rfl),
      if_pos (by simp [han])]
    simp [runIL, Outcome.readReg, evalExpr]
    rw [hsz]
    have hs := sext_word_signed (evalExpr st v % 2 ^ 16) (Nat.mod_lt _ (by norm_num))
    norm_num at hs ⊢
    exact hs

/-- Witness for C6: writes of `0x1234` into `d0 = 0x11223344` and
into `a0`. -/
theorem C6_register_direct_write_semantics_witness :
    (runIL [OpRegisterDirect_get_dest_il (some 1) "d0" (.const 2 0x1234) ""] 0
        ⟨fun _ => 0x11223344, fun _ => false, fun _ _ => false, fun _ => 0⟩ 2).readReg (.r "d0") =
      0x11223334 ∧
    (runIL [OpRegisterDirect_get_dest_il (some 2) "d0" (.const 2 0x1234) ""] 0
        ⟨fun _ => 0x11223344, fun _ => false, fun _ _ => false, fun _ => 0⟩ 2).readReg (.r "d0") =
      0x11221234 ∧
    toSigned 32 ((runIL [OpRegisterDirect_get_dest_il (some 2) "a0" (.const 2 0x1234) ""] 0
        ⟨fun _ => 0x11223344, fun _ => false, fun _ _ => false, fun _ => 0⟩ 2).readReg (.r "a0")) =
      0x1234 :=
  C6_register_direct_write_semantics "d0" "a0" (by decide) (by decide) (by decide) (by decide)
    ⟨fun _ => 0x11223344, fun _ => false, fun _ _ => false, fun _ => 0⟩ (.const 2 0x1234) ""
    (by decide) rfl

end M68k
